import Mathlib

/-!
# Verification of the spending-forecast pipeline (`src/app/ml.py`, `src/app/main.py`)

Shallow embedding of the forecasting core of the `investec-ml-reports`
repository.  Money amounts and all series values are rationals (`ℚ`); the
pandas operations used by the code (groupby-sum, linear-interpolation
quantiles, `asfreq`, `fillna`, `np.clip`, `np.mean`, `np.min`, `np.max`)
are spelled out on lists.  Operations that raise in Python are `Option`-
or `Except`-valued here.

The two statistical model fits (`ExponentialSmoothing.fit().forecast()` in
`forecast_holt_winters` and `HuberRegressor().fit().predict()` in
`forecast_robust_regression`) are external numerical routines; they enter
the embedding as an oracle argument `Option ℚ` (`none` represents the fit
raising an exception, which the caller catches).  Every other line of
`ml.py` and the report endpoint of `main.py` is translated directly.
-/

namespace InvestecML

/-- A calendar date, as a `(year, month, day)` triple. -/
abbrev Date := ℕ × ℕ × ℕ

/-- A transaction record as consumed by `forecast_spending`
(`{"date": ..., "amount": ..., "description": ...}`, see `main.py:62-69`). -/
structure Txn where
  date : Date
  amount : ℚ
  description : String
deriving DecidableEq, Repr

/-- The calendar month a date falls in, as an absolute month index
(`pd.Grouper(freq='ME')` bins rows by this). -/
def monthOf (d : Date) : ℕ := 12 * d.1 + d.2.1

/-- Chronological (lexicographic) order on dates. -/
def dateLe (a b : Date) : Prop :=
  a.1 < b.1 ∨ (a.1 = b.1 ∧ (a.2.1 < b.2.1 ∨ (a.2.1 = b.2.1 ∧ a.2.2 ≤ b.2.2)))

instance : DecidableRel dateLe := fun a b => by unfold dateLe; infer_instance

/-! ## Percentiles (pandas `Series.quantile`, default linear interpolation) -/

/-- Linear interpolation into a (sorted) list at fractional position `h`:
`s[⌊h⌋] + (h − ⌊h⌋)·(s[⌈h⌉] − s[⌊h⌋])`. -/
def interpAt (s : List ℚ) (h : ℚ) : ℚ :=
  s.getD (⌊h⌋).toNat 0 + (h - ⌊h⌋) * (s.getD (⌈h⌉).toNat 0 - s.getD (⌊h⌋).toNat 0)

/-- pandas `Series.quantile(p)`: sort the values and linearly interpolate at
position `p·(n−1)`.  On an empty series pandas yields `NaN`; here `none`. -/
def quantile (p : ℚ) (xs : List ℚ) : Option ℚ :=
  if xs.isEmpty then none
  else some (interpAt (xs.insertionSort (· ≤ ·)) (p * ((xs.length : ℚ) - 1)))

/-- pandas `Series.median()` = `quantile(0.5)`. -/
def median (xs : List ℚ) : Option ℚ := quantile (1/2) xs

/-- `np.mean` / `Series.mean()`; `NaN` (here `none`) on an empty series. -/
def mean (xs : List ℚ) : Option ℚ :=
  if xs.isEmpty then none else some (xs.sum / (xs.length : ℚ))

/-! ## Daily aggregation and outlier filter (`ml.py:7-38`) -/

/-- Total of `|amount|` over the transactions dated `d`
(`df['y'] = df['amount'].abs()` at `ml.py:49` followed by the
`groupby(df['ds'].dt.date)['y'].sum()` at `ml.py:8`). -/
def amountsOn (txs : List Txn) (d : Date) : ℚ :=
  ((txs.filter (fun t => decide (t.date = d))).map (fun t => |t.amount|)).sum

/-- The distinct transaction dates in chronological order (the group keys of
`groupby(df['ds'].dt.date)`). -/
def txnDates (txs : List Txn) : List Date :=
  ((txs.map Txn.date).dedup).insertionSort dateLe

/-- The daily series: one `(date, total)` row per calendar day with at least
one transaction (`ml.py:8-9`). -/
def dailyTotals (txs : List Txn) : List (Date × ℚ) :=
  (txnDates txs).map (fun d => (d, amountsOn txs d))

/-- `remove_daily_outliers(df, method='iqr', k=1.5)` (`ml.py:7-38`), as invoked
from `prepare_monthly_data` at `ml.py:51` (the `zscore` and error branches are
unreachable at that sole call site).  Computes `Q1`, `Q3`, `IQR = Q3 − Q1`
over the daily totals and keeps the days with
`Q1 − 1.5·IQR ≤ y ≤ Q3 + 1.5·IQR`.  On an empty frame the quantiles are
`NaN`, every comparison with `NaN` is `False`, and the result is empty. -/
def remove_daily_outliers (txs : List Txn) : List (Date × ℚ) :=
  match quantile (1/4) ((dailyTotals txs).map Prod.snd),
      quantile (3/4) ((dailyTotals txs).map Prod.snd) with
  | some q1, some q3 =>
      (dailyTotals txs).filter (fun r =>
        decide (q1 - 3/2 * (q3 - q1) ≤ r.2 ∧ r.2 ≤ q3 + 3/2 * (q3 - q1)))
  | _, _ => []

/-! ## Monthly aggregation and capping (`ml.py:40-66`) -/

/-- Sum of the surviving daily totals that fall in calendar month `m`. -/
def monthTotal (daily : List (Date × ℚ)) (m : ℕ) : ℚ :=
  ((daily.filter (fun r => decide (monthOf r.1 = m))).map Prod.snd).sum

/-- The complete contiguous range of month bins spanned by the daily rows:
`pd.Grouper(key='ds', freq='ME')` bins the data from the month of the earliest
row to the month of the latest row inclusive, empty months included. -/
def monthRange (daily : List (Date × ℚ)) : List ℕ :=
  match daily.map (fun r => monthOf r.1) with
  | [] => []
  | m :: ms => List.range' (ms.foldl min m) (ms.foldl max m + 1 - ms.foldl min m)

/-- `daily_clean.groupby(pd.Grouper(key='ds', freq='ME'))['y'].sum()`
(`ml.py:54`): one entry per month bin; a bin holding no rows sums to `0.0`
(pandas sum with `min_count=0`).  Because this index is already a complete
month-end range with no missing values, the subsequent
`.asfreq('ME').fillna(monthly['y'].median())` at `ml.py:56` adds no rows and
fills nothing: it is an identity on this data. -/
def monthlyBins (daily : List (Date × ℚ)) : List (ℕ × ℚ) :=
  (monthRange daily).map (fun m => (m, monthTotal daily m))

/-- `cap_monthly_outliers(monthly, upper_quantile=0.95)` (`ml.py:40-44`):
one-sided clip of every monthly total at the 95th percentile of the series
(`np.clip(monthly['y'], None, upper)` is `min · upper` pointwise).  `none`
when the series is empty (pandas would produce a `NaN` bound). -/
def cap_monthly_outliers (monthly : List (ℕ × ℚ)) : Option (List (ℕ × ℚ)) :=
  (quantile (19/20) (monthly.map Prod.snd)).map
    (fun u => monthly.map (fun r => (r.1, min r.2 u)))

/-- `prepare_monthly_data(transactions)` (`ml.py:46-66`).  On an empty input
list `pd.DataFrame(transactions)` has no `'date'` column and `ml.py:48`
raises `KeyError`; hence `none`. -/
def prepare_monthly_data (txs : List Txn) : Option (List (ℕ × ℚ)) :=
  if txs.isEmpty then none
  else cap_monthly_outliers (monthlyBins (remove_daily_outliers txs))

/-! ## The two forecasters (`ml.py:68-103`) -/

/-- `forecast_holt_winters(monthly)` (`ml.py:68-81`).  `fit` is the oracle for
`ExponentialSmoothing(...).fit().forecast(1)` (`none` = the fit raised; the
caller catches it at `ml.py:128-131`).  The confidence bounds are the
25th/75th historical percentiles, not a model interval (`ml.py:77-79`). -/
def forecast_holt_winters (fit : Option ℚ) (ys : List ℚ) : Option (ℚ × ℚ × ℚ) := do
  let p ← fit
  let lo ← quantile (1/4) ys
  let hi ← quantile (3/4) ys
  return (p, lo, hi)

/-- `create_lagged_features(monthly, lags)` (`ml.py:83-88`): row `i` keeps
target `y[i]` with features `[y[i−1], …, y[i−lags]]`; `dropna()` removes the
first `lags` rows, so the table is empty iff `len(monthly) ≤ lags`. -/
def create_lagged_features (ys : List ℚ) (lags : ℕ) : List (ℚ × List ℚ) :=
  (List.range ys.length).filterMap (fun i =>
    if lags ≤ i then
      some (ys.getD i 0, (List.range lags).map (fun j => ys.getD (i - (j + 1)) 0))
    else none)

/-- `forecast_robust_regression(monthly, lags=3)` (`ml.py:90-103`): raises
`ValueError` when the lagged table is empty (`ml.py:92-93`, caught by the
caller); otherwise `fit` is the oracle for
`HuberRegressor().fit(X, y).predict([last_lags])[0]`, and the bounds are the
same 25th/75th percentile proxy (`ml.py:99-101`). -/
def forecast_robust_regression (fit : Option ℚ) (ys : List ℚ) (lags : ℕ := 3) :
    Option (ℚ × ℚ × ℚ) :=
  if (create_lagged_features ys lags).isEmpty then none
  else do
    let p ← fit
    let lo ← quantile (1/4) ys
    let hi ← quantile (3/4) ys
    return (p, lo, hi)

/-! ## The orchestrator (`ml.py:105-171`) -/

/-- The forecast result dict (`ml.py:116-124` and `ml.py:163-171`);
`ci_lower`/`ci_upper` are the `confidence_interval` fields. -/
structure ForecastResult where
  predicted_spending : ℚ
  ci_lower : ℚ
  ci_upper : ℚ
  trend_percentage : ℚ
  average_monthly_spending : ℚ
deriving DecidableEq, Repr

/-- The contributions collected at `ml.py:140-150`: each forecaster's
`(prediction, lower, upper)` triple enters (in Holt-Winters-then-regression
order) iff the forecaster succeeded (`is not None`) and its prediction is
strictly positive. -/
def ensembleContribs (hwFit rrFit : Option ℚ) (ys : List ℚ) : List (ℚ × ℚ × ℚ) :=
  ((forecast_holt_winters hwFit ys).toList
      ++ (forecast_robust_regression rrFit ys 3).toList).filter
    (fun c => decide (0 < c.1))

/-- Body of `forecast_spending` from `ml.py:107` on, parameterized by the
prepared monthly series.  `hwFit`/`rrFit` are the model-fit oracles of the two
forecasters.  Mirrors: the mean and last value at `ml.py:107-108`, the
under-6-months median fallback at `ml.py:110-124`, the try/except around each
forecaster (`ml.py:126-138`, failure = `none`), the strict-positivity filter
when collecting contributions (`ml.py:140-150`), the mean/min/max combination
and guarded trend at `ml.py:152-156`, and the no-contribution fallback at
`ml.py:157-161`. -/
def forecast_from_monthly (hwFit rrFit : Option ℚ) (monthly : List (ℕ × ℚ)) :
    Option ForecastResult :=
  (mean (monthly.map Prod.snd)).bind fun avg_monthly =>
  if monthly.length < 6 then
    (median (monthly.map Prod.snd)).bind fun pred =>
    (quantile (1/4) (monthly.map Prod.snd)).bind fun lo =>
    (quantile (3/4) (monthly.map Prod.snd)).bind fun hi =>
    some ⟨pred, lo, hi, 0, avg_monthly⟩
  else
    match ensembleContribs hwFit rrFit (monthly.map Prod.snd) with
    | [] =>
        (median (monthly.map Prod.snd)).bind fun pred =>
        (quantile (1/4) (monthly.map Prod.snd)).bind fun lo =>
        (quantile (3/4) (monthly.map Prod.snd)).bind fun hi =>
        some ⟨pred, lo, hi, 0, avg_monthly⟩
    | c :: cs =>
        some ⟨((c :: cs).map (fun x => x.1)).sum / (((c :: cs).length : ℕ) : ℚ),
          cs.foldl (fun a x => min a x.2.1) c.2.1,
          cs.foldl (fun a x => max a x.2.2) c.2.2,
          if 0 < ((monthly.map Prod.snd).getLast?).getD 0 then
            (((c :: cs).map (fun x => x.1)).sum / (((c :: cs).length : ℕ) : ℚ)
                - ((monthly.map Prod.snd).getLast?).getD 0)
              / ((monthly.map Prod.snd).getLast?).getD 0 * 100
          else 0,
          avg_monthly⟩

/-- `forecast_spending(transactions)` (`ml.py:105-171`). -/
def forecast_spending (hwFit rrFit : Option ℚ) (txs : List Txn) :
    Option ForecastResult :=
  (prepare_monthly_data txs).bind (forecast_from_monthly hwFit rrFit)

/-- The last actual month's total as used at `ml.py:108`
(`monthly['y'].iloc[-1] if len(monthly) > 0 else 0.0`). -/
def lastMonthTotal (txs : List Txn) : ℚ :=
  ((((prepare_monthly_data txs).getD []).map Prod.snd).getLast?).getD 0

/-- The number of distinct calendar months carrying at least one transaction. -/
def distinctActiveMonths (txs : List Txn) : ℕ :=
  ((txs.map (fun t => monthOf t.date)).dedup).length

/-! ## The report endpoint (`main.py:46-94`) -/

/-- Failure modes of `generate_report` (after the user lookup, which is
outside the forecasting core). -/
inductive ReportError where
  /-- `HTTPException(400, "No transactions found for user")` (`main.py:58-59`):
  the insufficient-data error, a recoverable client-visible condition. -/
  | noTransactions
  /-- `HTTPException(400/500)` raised from the forecasting call
  (`main.py:91-94`). -/
  | forecastFailed
deriving DecidableEq, Repr

/-- Python `round(x, k)`: round half to even at `k` decimal places. -/
def pyRound (k : ℕ) (x : ℚ) : ℚ :=
  let s := x * (10 ^ k : ℕ)
  let f := ⌊s⌋
  let r := s - f
  let n : ℤ := if r < 1/2 then f else if 1/2 < r then f + 1
    else if f % 2 = 0 then f else f + 1
  (n : ℚ) / ((10 ^ k : ℕ) : ℚ)

/-- The response body assembled at `main.py:75-90`. -/
structure Report where
  forecast_amount : ℚ
  ci_lower : ℚ
  ci_upper : ℚ
  trend_percentage : ℚ
  trend_direction : String
  average_monthly : ℚ
deriving DecidableEq, Repr

/-- `generate_report` (`main.py:47-94`), from the point where the user's
transaction list has been fetched: an empty list is rejected up front with
the insufficient-data error (`main.py:58-59`); otherwise `forecast_spending`
runs and its result is rounded and wrapped (`main.py:71-90`). -/
def generate_report (hwFit rrFit : Option ℚ) (txs : List Txn) :
    Except ReportError Report :=
  if txs.isEmpty then .error .noTransactions
  else
    match forecast_spending hwFit rrFit txs with
    | none => .error .forecastFailed
    | some r =>
        .ok {
          forecast_amount := pyRound 2 r.predicted_spending
          ci_lower := pyRound 2 r.ci_lower
          ci_upper := pyRound 2 r.ci_upper
          trend_percentage := pyRound 1 r.trend_percentage
          trend_direction := if 0 < r.trend_percentage then "up" else "down"
          average_monthly := pyRound 2 r.average_monthly_spending }

/-! ## Concrete sample inputs used in the evaluations below -/

/-- Two transactions in two consecutive months with different totals. -/
def sampleTwoMonths : List Txn :=
  [⟨(2024, 1, 5), 100, "rent"⟩, ⟨(2024, 2, 5), 50, "food"⟩]

/-- Two equal-amount transactions in January and March 2024: February has no
data at all, so its month bin holds no surviving daily rows. -/
def sampleGapMonth : List Txn :=
  [⟨(2024, 1, 5), 100, "rent"⟩, ⟨(2024, 3, 5), 100, "rent"⟩]

/-- Two equal-amount transactions in January and December 2024: only 2
distinct months of activity, but a 12-month observed span. -/
def sampleSparseYear : List Txn :=
  [⟨(2024, 1, 5), 100, "rent"⟩, ⟨(2024, 12, 5), 100, "rent"⟩]

/-- Two days with identical daily totals. -/
def sampleFlatDays : List Txn :=
  [⟨(2024, 4, 1), 70, "a"⟩, ⟨(2024, 4, 2), 70, "b"⟩]

/-- Six consecutive months, one 100-unit transaction each. -/
def sampleSixMonths : List Txn :=
  [⟨(2024, 1, 5), 100, "a"⟩, ⟨(2024, 2, 5), 100, "b"⟩, ⟨(2024, 3, 5), 100, "c"⟩,
    ⟨(2024, 4, 5), 100, "d"⟩, ⟨(2024, 5, 5), 100, "e"⟩, ⟨(2024, 6, 5), 100, "f"⟩]

/-! ## Interpolation on sorted lists: generic lemmas -/

theorem getD_le_getD_of_sorted {s : List ℚ} (hs : List.Sorted (· ≤ ·) s)
    {i j : ℕ} (hij : i ≤ j) (hj : j < s.length) :
    s.getD i 0 ≤ s.getD j 0 := by
  have hi : i < s.length := Nat.lt_of_le_of_lt hij hj
  rw [List.getD_eq_get _ _ hi, List.getD_eq_get _ _ hj]
  rcases Nat.eq_or_lt_of_le hij with h | h
  · subst h; exact le_rfl
  · exact hs.rel_get_of_lt h

theorem length_pos_of_le_sub_one {s : List ℚ} {h : ℚ}
    (h0 : 0 ≤ h) (h1 : h ≤ (s.length : ℚ) - 1) : 1 ≤ s.length := by
  by_contra hc
  have hz : s.length = 0 := by omega
  rw [hz] at h1
  norm_num at h1
  linarith

theorem ceil_le_length_sub_one {s : List ℚ} {h : ℚ}
    (h1 : h ≤ (s.length : ℚ) - 1) : ⌈h⌉ ≤ (s.length : ℤ) - 1 := by
  rw [Int.ceil_le]
  push_cast
  linarith

theorem ceil_toNat_lt {s : List ℚ} {h : ℚ}
    (h0 : 0 ≤ h) (h1 : h ≤ (s.length : ℚ) - 1) : (⌈h⌉).toNat < s.length := by
  have hn := length_pos_of_le_sub_one h0 h1
  have hceil := ceil_le_length_sub_one h1
  omega

theorem floor_toNat_lt {s : List ℚ} {h : ℚ}
    (h0 : 0 ≤ h) (h1 : h ≤ (s.length : ℚ) - 1) : (⌊h⌋).toNat < s.length := by
  have hn := length_pos_of_le_sub_one h0 h1
  have hceil := ceil_le_length_sub_one h1
  have hfc := Int.floor_le_ceil h
  omega

theorem le_interpAt {s : List ℚ} (hs : List.Sorted (· ≤ ·) s) {h : ℚ}
    (h0 : 0 ≤ h) (h1 : h ≤ (s.length : ℚ) - 1) :
    s.getD (⌊h⌋).toNat 0 ≤ interpAt s h := by
  have hab : s.getD (⌊h⌋).toNat 0 ≤ s.getD (⌈h⌉).toNat 0 :=
    getD_le_getD_of_sorted hs (Int.toNat_le_toNat (Int.floor_le_ceil h))
      (ceil_toNat_lt h0 h1)
  have hf0 : 0 ≤ h - ⌊h⌋ := sub_nonneg.2 (Int.floor_le h)
  have hmul : 0 ≤ (h - ⌊h⌋) * (s.getD (⌈h⌉).toNat 0 - s.getD (⌊h⌋).toNat 0) :=
    mul_nonneg hf0 (sub_nonneg.2 hab)
  unfold interpAt
  linarith

theorem interpAt_le {s : List ℚ} (hs : List.Sorted (· ≤ ·) s) {h : ℚ}
    (h0 : 0 ≤ h) (h1 : h ≤ (s.length : ℚ) - 1) :
    interpAt s h ≤ s.getD (⌈h⌉).toNat 0 := by
  have hab : s.getD (⌊h⌋).toNat 0 ≤ s.getD (⌈h⌉).toNat 0 :=
    getD_le_getD_of_sorted hs (Int.toNat_le_toNat (Int.floor_le_ceil h))
      (ceil_toNat_lt h0 h1)
  have hf1 : h - ⌊h⌋ < 1 := by
    have := Int.lt_floor_add_one h
    linarith
  unfold interpAt
  nlinarith [sub_nonneg.2 hab]

theorem interpAt_natCast (s : List ℚ) (k : ℕ) :
    interpAt s (k : ℚ) = s.getD k 0 := by
  simp [interpAt]

theorem interpAt_mono {s : List ℚ} (hs : List.Sorted (· ≤ ·) s) {h₁ h₂ : ℚ}
    (h0 : 0 ≤ h₁) (h12 : h₁ ≤ h₂) (h2 : h₂ ≤ (s.length : ℚ) - 1) :
    interpAt s h₁ ≤ interpAt s h₂ := by
  have h20 : 0 ≤ h₂ := le_trans h0 h12
  have h1top : h₁ ≤ (s.length : ℚ) - 1 := le_trans h12 h2
  have hfl : ⌊h₁⌋ ≤ ⌊h₂⌋ := Int.floor_le_floor h12
  rcases lt_or_eq_of_le hfl with hlt | heq
  · have hc1 : ⌈h₁⌉ ≤ ⌊h₂⌋ := le_trans (Int.ceil_le_floor_add_one h₁) (by omega)
    have hfl2lt : (⌊h₂⌋).toNat < s.length := by
      have := ceil_le_length_sub_one h2
      have := Int.floor_le_ceil h₂
      have := Int.floor_nonneg.2 h20
      omega
    calc interpAt s h₁ ≤ s.getD (⌈h₁⌉).toNat 0 := interpAt_le hs h0 h1top
      _ ≤ s.getD (⌊h₂⌋).toNat 0 :=
        getD_le_getD_of_sorted hs (Int.toNat_le_toNat hc1) hfl2lt
      _ ≤ interpAt s h₂ := le_interpAt hs h20 h2
  · by_cases hint : h₁ - ⌊h₁⌋ = 0
    · have hx : interpAt s h₁ = s.getD (⌊h₁⌋).toNat 0 := by
        unfold interpAt
        rw [hint]
        ring
      rw [hx, heq]
      exact le_interpAt hs h20 h2
    · have hflt1 : (⌊h₁⌋ : ℚ) < h₁ :=
        lt_of_le_of_ne (Int.floor_le h₁)
          (fun hcon => hint (by rw [hcon, sub_self]))
      have hflt2 : (⌊h₂⌋ : ℚ) < h₂ := by
        rw [← heq]
        exact lt_of_lt_of_le hflt1 h12
      have hceq1 : ⌈h₁⌉ = ⌊h₁⌋ + 1 :=
        le_antisymm (Int.ceil_le_floor_add_one h₁)
          (Int.add_one_le_iff.mpr (Int.lt_ceil.mpr hflt1))
      have hceq2 : ⌈h₂⌉ = ⌊h₂⌋ + 1 :=
        le_antisymm (Int.ceil_le_floor_add_one h₂)
          (Int.add_one_le_iff.mpr (Int.lt_ceil.mpr hflt2))
      have hhi_lt : (⌈h₂⌉).toNat < s.length := ceil_toNat_lt h20 h2
      have hab : s.getD (⌊h₂⌋).toNat 0 ≤ s.getD (⌈h₂⌉).toNat 0 :=
        getD_le_getD_of_sorted hs (Int.toNat_le_toNat (Int.floor_le_ceil h₂)) hhi_lt
      unfold interpAt
      rw [heq, hceq1, hceq2] at *
      nlinarith [sub_nonneg.2 hab]

/-! ## Quantile lemmas -/

theorem sortVals_sorted (xs : List ℚ) :
    List.Sorted (· ≤ ·) (xs.insertionSort (· ≤ ·)) :=
  List.sorted_insertionSort _ _

theorem quantile_eq_some {xs : List ℚ} (hne : xs ≠ []) (p : ℚ) :
    quantile p xs =
      some (interpAt (xs.insertionSort (· ≤ ·)) (p * ((xs.length : ℚ) - 1))) := by
  simp [quantile, hne]

theorem quantile_isSome {xs : List ℚ} (hne : xs ≠ []) (p : ℚ) :
    ∃ q, quantile p xs = some q :=
  ⟨_, quantile_eq_some hne p⟩

theorem length_cast_sub_one_nonneg {xs : List ℚ} (hne : xs ≠ []) :
    (0 : ℚ) ≤ (xs.length : ℚ) - 1 := by
  have : 1 ≤ xs.length := List.length_pos.2 hne
  have : (1 : ℚ) ≤ (xs.length : ℚ) := by exact_mod_cast this
  linarith

theorem quantile_le_quantile {xs : List ℚ} {p₁ p₂ a b : ℚ}
    (hp0 : 0 ≤ p₁) (hp : p₁ ≤ p₂) (hp1 : p₂ ≤ 1)
    (ha : quantile p₁ xs = some a) (hb : quantile p₂ xs = some b) : a ≤ b := by
  by_cases hne : xs = []
  · subst hne; simp [quantile] at ha
  · rw [quantile_eq_some hne] at ha hb
    have hn1 := length_cast_sub_one_nonneg hne
    obtain rfl : a = _ := (Option.some.injEq _ _ ▸ ha).symm
    obtain rfl : b = _ := (Option.some.injEq _ _ ▸ hb).symm
    apply interpAt_mono (sortVals_sorted xs)
    · exact mul_nonneg hp0 hn1
    · exact mul_le_mul_of_nonneg_right hp hn1
    · rw [List.length_insertionSort]
      calc p₂ * ((xs.length : ℚ) - 1) ≤ 1 * ((xs.length : ℚ) - 1) :=
            mul_le_mul_of_nonneg_right hp1 hn1
        _ = (xs.length : ℚ) - 1 := one_mul _

theorem quantile_const {xs : List ℚ} (hne : xs ≠ []) {c : ℚ}
    (hc : ∀ x ∈ xs, x = c) {p : ℚ} (hp0 : 0 ≤ p) (hp1 : p ≤ 1) :
    quantile p xs = some c := by
  rw [quantile_eq_some hne]
  have hn1 := length_cast_sub_one_nonneg hne
  have h0 : 0 ≤ p * ((xs.length : ℚ) - 1) := mul_nonneg hp0 hn1
  have h1 : p * ((xs.length : ℚ) - 1) ≤ ((xs.insertionSort (· ≤ ·)).length : ℚ) - 1 := by
    rw [List.length_insertionSort]
    calc p * ((xs.length : ℚ) - 1) ≤ 1 * ((xs.length : ℚ) - 1) :=
          mul_le_mul_of_nonneg_right hp1 hn1
      _ = (xs.length : ℚ) - 1 := one_mul _
  have hcs : ∀ x ∈ xs.insertionSort (· ≤ ·), x = c := fun x hx =>
    hc x ((List.mem_insertionSort _).1 hx)
  have hlo : (xs.insertionSort (· ≤ ·)).getD (⌊p * ((xs.length : ℚ) - 1)⌋).toNat 0 = c := by
    rw [List.getD_eq_getElem _ _ (floor_toNat_lt h0 h1)]
    exact hcs _ (List.getElem_mem _)
  have hhi : (xs.insertionSort (· ≤ ·)).getD (⌈p * ((xs.length : ℚ) - 1)⌉).toNat 0 = c := by
    rw [List.getD_eq_getElem _ _ (ceil_toNat_lt h0 h1)]
    exact hcs _ (List.getElem_mem _)
  unfold interpAt
  rw [hlo, hhi]
  ring_nf

/-- Some element of a nonempty series lies inside the IQR acceptance window
`[Q1 − 1.5·IQR, Q3 + 1.5·IQR]`; hence the IQR filter never discards all data. -/
theorem exists_mem_iqr_window {xs : List ℚ} (hne : xs ≠ []) {q1 q3 : ℚ}
    (h1 : quantile (1/4) xs = some q1) (h3 : quantile (3/4) xs = some q3) :
    ∃ x ∈ xs, q1 - 3/2 * (q3 - q1) ≤ x ∧ x ≤ q3 + 3/2 * (q3 - q1) := by
  have hq13 : q1 ≤ q3 :=
    quantile_le_quantile (by norm_num) (by norm_num) (by norm_num) h1 h3
  have hn1 := length_cast_sub_one_nonneg hne
  rw [quantile_eq_some hne] at h1 h3
  set s := xs.insertionSort (· ≤ ·) with hsdef
  have hslen : s.length = xs.length := List.length_insertionSort _ _
  set n1 : ℚ := (xs.length : ℚ) - 1 with hn1def
  have hh0 : (0 : ℚ) ≤ 1/4 * n1 := by linarith
  have hh1 : 1/4 * n1 ≤ (s.length : ℚ) - 1 := by rw [hslen]; linarith
  have hh30 : (0 : ℚ) ≤ 3/4 * n1 := by linarith
  have hh31 : 3/4 * n1 ≤ (s.length : ℚ) - 1 := by rw [hslen]; linarith
  have hidx : (⌈1/4 * n1⌉).toNat < s.length := ceil_toNat_lt hh0 hh1
  have hq1x : q1 ≤ s.getD (⌈1/4 * n1⌉).toNat 0 := by
    have := interpAt_le (sortVals_sorted xs) hh0 hh1
    rw [← hsdef] at this
    rw [← Option.some.inj h1]
    exact this
  refine ⟨s.getD (⌈1/4 * n1⌉).toNat 0, ?_, ?_, ?_⟩
  · rw [List.getD_eq_getElem _ _ hidx]
    exact (List.mem_insertionSort _).1 (List.getElem_mem _)
  · linarith
  · -- upper bound; `n = 2` is the one length where the ceiling of the `Q1`
    -- position exceeds the `Q3` position, handled by direct computation
    by_cases h2 : xs.length = 2
    · obtain ⟨a, b, hab⟩ : ∃ a b, s = [a, b] := by
        have hs2 : s.length = 2 := by rw [hslen, h2]
        match s, hs2 with
        | [a, b], _ => exact ⟨a, b, rfl⟩
      have haleb : a ≤ b := by
        have hsrt := sortVals_sorted xs
        rw [← hsdef, hab, List.sorted_cons] at hsrt
        exact hsrt.1 b (by simp)
      have hn1v : n1 = 1 := by rw [hn1def, h2]; norm_num
      have hfl14 : ⌊(1/4 : ℚ)⌋ = 0 := by rw [Int.floor_eq_iff] <;> norm_num
      have hcl14 : ⌈(1/4 : ℚ)⌉ = 1 := by rw [Int.ceil_eq_iff] <;> norm_num
      have hfl34 : ⌊(3/4 : ℚ)⌋ = 0 := by rw [Int.floor_eq_iff] <;> norm_num
      have hcl34 : ⌈(3/4 : ℚ)⌉ = 1 := by rw [Int.ceil_eq_iff] <;> norm_num
      have hq1v : q1 = a + 1/4 * (b - a) := by
        rw [← Option.some.inj h1, hn1v, hab]
        norm_num [interpAt, hfl14, hcl14]
      have hq3v : q3 = a + 3/4 * (b - a) := by
        rw [← Option.some.inj h3, hn1v, hab]
        norm_num [interpAt, hfl34, hcl34]
      have hidx2 : (⌈1/4 * n1⌉).toNat = 1 := by
        rw [hn1v]
        norm_num [hcl14]
      have hxv : s.getD (⌈1/4 * n1⌉).toNat 0 = b := by
        rw [hidx2, hab]
        rfl
      rw [hxv, hq3v, hq1v]
      linarith
    · have hcnn : (0 : ℤ) ≤ ⌈1/4 * n1⌉ := Int.ceil_nonneg hh0
      have hctn : ((⌈1/4 * n1⌉).toNat : ℚ) = ((⌈1/4 * n1⌉ : ℤ) : ℚ) := by
        exact_mod_cast congrArg (fun z : ℤ => (z : ℚ)) (Int.toNat_of_nonneg hcnn)
      have hcl : ((⌈1/4 * n1⌉ : ℤ) : ℚ) ≤ 3/4 * n1 := by
        rcases Nat.lt_or_ge xs.length 2 with hlen | hlen
        · -- length 1: both positions are 0
          have hx1 : xs.length = 1 := by
            have := List.length_pos.2 hne
            omega
          have hn1z : n1 = 0 := by rw [hn1def, hx1]; norm_num
          rw [hn1z]
          norm_num
        · -- length ≥ 3: the `Q1` position is ≥ 1/2
          have hlen3 : 3 ≤ xs.length := by omega
          have hq14 : (1/2 : ℚ) ≤ 1/4 * n1 := by
            have : (3 : ℚ) ≤ (xs.length : ℚ) := by exact_mod_cast hlen3
            rw [hn1def]
            linarith
          have hceil := Int.ceil_le_floor_add_one (1/4 * n1)
          have hfle := Int.floor_le (1/4 * n1)
          have : ((⌈1/4 * n1⌉ : ℤ) : ℚ) ≤ ((⌊1/4 * n1⌋ : ℤ) : ℚ) + 1 := by
            exact_mod_cast hceil
          linarith
      have hx : s.getD (⌈1/4 * n1⌉).toNat 0 = interpAt s (((⌈1/4 * n1⌉).toNat : ℕ) : ℚ) := by
        rw [interpAt_natCast]
      rw [hx]
      have hxle : interpAt s (((⌈1/4 * n1⌉).toNat : ℕ) : ℚ) ≤ interpAt s (3/4 * n1) := by
        apply interpAt_mono (sortVals_sorted xs)
        · positivity
        · rw [hctn]; exact hcl
        · rw [hslen]; linarith
      have hq3x : interpAt s (3/4 * n1) = q3 := (Option.some.inj h3).symm ▸ rfl
      rw [← Option.some.inj h3]
      linarith

/-! ## Folded minima and maxima -/

section FoldMinMax

variable {α : Type} [LinearOrder α]

theorem foldl_min_le_init (l : List α) (a : α) : l.foldl min a ≤ a := by
  induction l generalizing a with
  | nil => exact le_rfl
  | cons x t ih => exact le_trans (ih (min a x)) (min_le_left a x)

theorem foldl_min_le_mem {l : List α} {x : α} (hx : x ∈ l) (a : α) :
    l.foldl min a ≤ x := by
  induction l generalizing a with
  | nil => cases hx
  | cons y t ih =>
    rcases List.mem_cons.1 hx with rfl | hx'
    · exact le_trans (foldl_min_le_init t (min a x)) (min_le_right a x)
    · exact ih hx' (min a y)

theorem foldl_min_choice (l : List α) (a : α) :
    l.foldl min a = a ∨ l.foldl min a ∈ l := by
  induction l generalizing a with
  | nil => exact Or.inl rfl
  | cons x t ih =>
    rcases ih (min a x) with h | h
    · rcases min_choice a x with hm | hm
      · exact Or.inl (by rw [List.foldl_cons, h, hm])
      · exact Or.inr (by rw [List.foldl_cons, h, hm]; exact List.mem_cons_self x t)
    · exact Or.inr (List.mem_cons_of_mem x h)

theorem init_le_foldl_max (l : List α) (a : α) : a ≤ l.foldl max a := by
  induction l generalizing a with
  | nil => exact le_rfl
  | cons x t ih => exact le_trans (le_max_left a x) (ih (max a x))

theorem mem_le_foldl_max {l : List α} {x : α} (hx : x ∈ l) (a : α) :
    x ≤ l.foldl max a := by
  induction l generalizing a with
  | nil => cases hx
  | cons y t ih =>
    rcases List.mem_cons.1 hx with rfl | hx'
    · exact le_trans (le_max_right a x) (init_le_foldl_max t (max a x))
    · exact ih hx' (max a y)

theorem foldl_max_choice (l : List α) (a : α) :
    l.foldl max a = a ∨ l.foldl max a ∈ l := by
  induction l generalizing a with
  | nil => exact Or.inl rfl
  | cons x t ih =>
    rcases ih (max a x) with h | h
    · rcases max_choice a x with hm | hm
      · exact Or.inl (by rw [List.foldl_cons, h, hm])
      · exact Or.inr (by rw [List.foldl_cons, h, hm]; exact List.mem_cons_self x t)
    · exact Or.inr (List.mem_cons_of_mem x h)

end FoldMinMax

/-! ## Nonemptiness through the pipeline -/

theorem dailyTotals_ne_nil {txs : List Txn} (hne : txs ≠ []) :
    dailyTotals txs ≠ [] := by
  unfold dailyTotals txnDates
  intro hcon
  rw [List.map_eq_nil_iff] at hcon
  have hlen := congrArg List.length hcon
  rw [List.length_insertionSort, List.length_nil, List.length_eq_zero,
    List.dedup_eq_nil, List.map_eq_nil_iff] at hlen
  exact hne hlen

theorem remove_daily_outliers_ne_nil {txs : List Txn} (hne : txs ≠ []) :
    remove_daily_outliers txs ≠ [] := by
  have hdne := dailyTotals_ne_nil hne
  have hvne : (dailyTotals txs).map Prod.snd ≠ [] := by
    simpa [List.map_eq_nil_iff] using hdne
  obtain ⟨q1, hq1⟩ := quantile_isSome hvne (1/4)
  obtain ⟨q3, hq3⟩ := quantile_isSome hvne (3/4)
  obtain ⟨x, hxmem, hxlo, hxhi⟩ := exists_mem_iqr_window hvne hq1 hq3
  obtain ⟨r, hrmem, hrx⟩ := List.mem_map.1 hxmem
  unfold remove_daily_outliers
  rw [hq1, hq3]
  refine List.ne_nil_of_mem (a := r) ?_
  rw [List.mem_filter]
  exact ⟨hrmem, by rw [hrx]; exact decide_eq_true ⟨hxlo, hxhi⟩⟩

theorem monthRange_eq {daily : List (Date × ℚ)} {m : ℕ} {ms : List ℕ}
    (hmap : daily.map (fun r => monthOf r.1) = m :: ms) :
    monthRange daily =
      List.range' (ms.foldl min m) (ms.foldl max m + 1 - ms.foldl min m) := by
  unfold monthRange
  rw [hmap]

theorem monthlyBins_ne_nil {daily : List (Date × ℚ)} (hne : daily ≠ []) :
    monthlyBins daily ≠ [] := by
  obtain ⟨m, ms, hmap⟩ : ∃ m ms, daily.map (fun r => monthOf r.1) = m :: ms := by
    cases hd : daily.map (fun r => monthOf r.1) with
    | nil => exact absurd (List.map_eq_nil_iff.1 hd) hne
    | cons m ms => exact ⟨m, ms, rfl⟩
  unfold monthlyBins
  rw [monthRange_eq hmap, ← List.length_pos, List.length_map, List.length_range']
  have h1 := foldl_min_le_init ms m
  have h2 := init_le_foldl_max ms m
  omega

theorem prepare_eq_some {txs : List Txn} (hne : txs ≠ []) :
    ∃ u, quantile (19/20) ((monthlyBins (remove_daily_outliers txs)).map Prod.snd) = some u ∧
      prepare_monthly_data txs =
        some ((monthlyBins (remove_daily_outliers txs)).map (fun r => (r.1, min r.2 u))) := by
  have hmne := monthlyBins_ne_nil (remove_daily_outliers_ne_nil hne)
  have hvne : (monthlyBins (remove_daily_outliers txs)).map Prod.snd ≠ [] := by
    simpa [List.map_eq_nil_iff] using hmne
  obtain ⟨u, hu⟩ := quantile_isSome hvne (19/20)
  refine ⟨u, hu, ?_⟩
  unfold prepare_monthly_data cap_monthly_outliers
  rw [List.isEmpty_eq_false.2 hne, hu]
  rfl

theorem prepare_isSome {txs : List Txn} (hne : txs ≠ []) :
    ∃ m, prepare_monthly_data txs = some m := by
  obtain ⟨u, _, hm⟩ := prepare_eq_some hne
  exact ⟨_, hm⟩

theorem prepare_some_ne_nil {txs : List Txn} {m : List (ℕ × ℚ)}
    (hm : prepare_monthly_data txs = some m) : m ≠ [] := by
  by_cases hne : txs = []
  · subst hne
    simp [prepare_monthly_data] at hm
  · obtain ⟨u, hu, hm'⟩ := prepare_eq_some hne
    rw [hm'] at hm
    have hmne := monthlyBins_ne_nil (remove_daily_outliers_ne_nil hne)
    obtain rfl := Option.some.inj hm
    simpa [List.map_eq_nil_iff] using hmne

/-! ## Path characterizations of the orchestrator -/

theorem forecast_holt_winters_inv {fit : Option ℚ} {ys : List ℚ} {c : ℚ × ℚ × ℚ}
    (hc : forecast_holt_winters fit ys = some c) :
    fit = some c.1 ∧ quantile (1/4) ys = some c.2.1 ∧ quantile (3/4) ys = some c.2.2 := by
  cases fit with
  | none => simp [forecast_holt_winters] at hc
  | some p =>
    cases hq1 : quantile (1/4) ys with
    | none =>
      simp only [forecast_holt_winters, hq1, Option.bind_eq_bind, Option.some_bind,
        Option.none_bind] at hc
      exact Option.noConfusion hc
    | some lo =>
      cases hq3 : quantile (3/4) ys with
      | none =>
        simp only [forecast_holt_winters, hq1, hq3, Option.bind_eq_bind, Option.some_bind,
          Option.none_bind] at hc
        exact Option.noConfusion hc
      | some hi =>
        simp only [forecast_holt_winters, hq1, hq3, Option.some_bind, Option.pure_def,
          Option.some.injEq, Option.bind_eq_bind] at hc
        subst hc
        exact ⟨rfl, rfl, rfl⟩

theorem forecast_robust_regression_inv {fit : Option ℚ} {ys : List ℚ} {c : ℚ × ℚ × ℚ}
    (hc : forecast_robust_regression fit ys 3 = some c) :
    fit = some c.1 ∧ quantile (1/4) ys = some c.2.1 ∧ quantile (3/4) ys = some c.2.2 := by
  by_cases hemp : (create_lagged_features ys 3).isEmpty
  · simp [forecast_robust_regression, hemp] at hc
  · rw [forecast_robust_regression, if_neg hemp] at hc
    cases fit with
    | none => simp at hc
    | some p =>
      cases hq1 : quantile (1/4) ys with
      | none =>
        simp only [hq1, Option.bind_eq_bind, Option.some_bind, Option.none_bind] at hc
        exact Option.noConfusion hc
      | some lo =>
        cases hq3 : quantile (3/4) ys with
        | none =>
          simp only [hq1, hq3, Option.bind_eq_bind, Option.some_bind,
            Option.none_bind] at hc
          exact Option.noConfusion hc
        | some hi =>
          simp only [hq1, hq3, Option.some_bind, Option.pure_def,
            Option.some.injEq, Option.bind_eq_bind] at hc
          subst hc
          exact ⟨rfl, rfl, rfl⟩

theorem mem_ensembleContribs {hwFit rrFit : Option ℚ} {ys : List ℚ} {c : ℚ × ℚ × ℚ} :
    c ∈ ensembleContribs hwFit rrFit ys ↔
      (forecast_holt_winters hwFit ys = some c ∨
        forecast_robust_regression rrFit ys 3 = some c) ∧ 0 < c.1 := by
  unfold ensembleContribs
  rw [List.mem_filter, List.mem_append]
  simp [Option.mem_toList, Option.mem_def]

/-- Every contributing triple carries the same bounds: the 25th and 75th
historical percentiles of the series. -/
theorem ensembleContribs_bounds {hwFit rrFit : Option ℚ} {ys : List ℚ} {c : ℚ × ℚ × ℚ}
    (hc : c ∈ ensembleContribs hwFit rrFit ys) :
    quantile (1/4) ys = some c.2.1 ∧ quantile (3/4) ys = some c.2.2 := by
  rcases (mem_ensembleContribs.1 hc).1 with h | h
  · exact (forecast_holt_winters_inv h).2
  · exact (forecast_robust_regression_inv h).2

theorem forecast_from_monthly_short {m : List (ℕ × ℚ)} (hne : m ≠ [])
    (hlen : m.length < 6) (hwFit rrFit : Option ℚ) :
    ∃ pred lo hi avg,
      median (m.map Prod.snd) = some pred ∧
      quantile (1/4) (m.map Prod.snd) = some lo ∧
      quantile (3/4) (m.map Prod.snd) = some hi ∧
      mean (m.map Prod.snd) = some avg ∧
      forecast_from_monthly hwFit rrFit m = some ⟨pred, lo, hi, 0, avg⟩ := by
  have hvne : m.map Prod.snd ≠ [] := by simpa [List.map_eq_nil_iff] using hne
  obtain ⟨pred, hpred⟩ := quantile_isSome hvne (1/2)
  obtain ⟨lo, hlo⟩ := quantile_isSome hvne (1/4)
  obtain ⟨hi, hhi⟩ := quantile_isSome hvne (3/4)
  have hie : (m.map Prod.snd).isEmpty = false := List.isEmpty_eq_false.mpr hvne
  refine ⟨pred, lo, hi, (m.map Prod.snd).sum / ((m.map Prod.snd).length : ℚ),
    ?_, hlo, hhi, ?_, ?_⟩
  · rw [median]; exact hpred
  · rw [mean, hie]
    simp
  · simp only [forecast_from_monthly, mean, hie, Bool.false_eq_true, if_false,
      Option.bind_eq_bind, Option.some_bind]
    rw [if_pos hlen]
    simp only [median, hpred, hlo, hhi, Option.some_bind, List.length_map]

theorem forecast_from_monthly_ensemble_nil {m : List (ℕ × ℚ)} (hne : m ≠ [])
    (hlen : ¬ m.length < 6) {hwFit rrFit : Option ℚ}
    (hc : ensembleContribs hwFit rrFit (m.map Prod.snd) = []) :
    ∃ pred lo hi avg,
      median (m.map Prod.snd) = some pred ∧
      quantile (1/4) (m.map Prod.snd) = some lo ∧
      quantile (3/4) (m.map Prod.snd) = some hi ∧
      mean (m.map Prod.snd) = some avg ∧
      forecast_from_monthly hwFit rrFit m = some ⟨pred, lo, hi, 0, avg⟩ := by
  have hvne : m.map Prod.snd ≠ [] := by simpa [List.map_eq_nil_iff] using hne
  obtain ⟨pred, hpred⟩ := quantile_isSome hvne (1/2)
  obtain ⟨lo, hlo⟩ := quantile_isSome hvne (1/4)
  obtain ⟨hi, hhi⟩ := quantile_isSome hvne (3/4)
  have hie : (m.map Prod.snd).isEmpty = false := List.isEmpty_eq_false.mpr hvne
  refine ⟨pred, lo, hi, (m.map Prod.snd).sum / ((m.map Prod.snd).length : ℚ),
    ?_, hlo, hhi, ?_, ?_⟩
  · rw [median]; exact hpred
  · rw [mean, hie]
    simp
  · simp only [forecast_from_monthly, mean, hie, Bool.false_eq_true, if_false,
      Option.bind_eq_bind, Option.some_bind]
    rw [if_neg hlen, hc]
    simp only [median, hpred, hlo, hhi, Option.some_bind, List.length_map]

theorem forecast_from_monthly_ensemble_cons {m : List (ℕ × ℚ)} (hne : m ≠ [])
    (hlen : ¬ m.length < 6) {hwFit rrFit : Option ℚ} {c : ℚ × ℚ × ℚ}
    {cs : List (ℚ × ℚ × ℚ)}
    (hc : ensembleContribs hwFit rrFit (m.map Prod.snd) = c :: cs) :
    forecast_from_monthly hwFit rrFit m =
      some ⟨((c :: cs).map (fun x => x.1)).sum / (((c :: cs).length : ℕ) : ℚ),
        cs.foldl (fun a x => min a x.2.1) c.2.1,
        cs.foldl (fun a x => max a x.2.2) c.2.2,
        if 0 < ((m.map Prod.snd).getLast?).getD 0 then
          (((c :: cs).map (fun x => x.1)).sum / (((c :: cs).length : ℕ) : ℚ)
              - ((m.map Prod.snd).getLast?).getD 0)
            / ((m.map Prod.snd).getLast?).getD 0 * 100
        else 0,
        (m.map Prod.snd).sum / ((m.map Prod.snd).length : ℚ)⟩ := by
  have hvne : m.map Prod.snd ≠ [] := by simpa [List.map_eq_nil_iff] using hne
  have hie : (m.map Prod.snd).isEmpty = false := List.isEmpty_eq_false.mpr hvne
  simp only [forecast_from_monthly, mean, hie, Bool.false_eq_true, if_false,
    Option.bind_eq_bind, Option.some_bind]
  rw [if_neg hlen, hc]

theorem foldl_min_proj_const {β : Type} {g : β → ℚ} {l : List β} {a v : ℚ}
    (ha : a = v) (hl : ∀ x ∈ l, g x = v) :
    l.foldl (fun acc x => min acc (g x)) a = v := by
  induction l generalizing a with
  | nil => exact ha
  | cons x t ih =>
    rw [List.foldl_cons]
    exact ih (by rw [ha, hl x (List.mem_cons_self x t), min_self])
      (fun y hy => hl y (List.mem_cons_of_mem x hy))

theorem foldl_max_proj_const {β : Type} {g : β → ℚ} {l : List β} {a v : ℚ}
    (ha : a = v) (hl : ∀ x ∈ l, g x = v) :
    l.foldl (fun acc x => max acc (g x)) a = v := by
  induction l generalizing a with
  | nil => exact ha
  | cons x t ih =>
    rw [List.foldl_cons]
    exact ih (by rw [ha, hl x (List.mem_cons_self x t), max_self])
      (fun y hy => hl y (List.mem_cons_of_mem x hy))

/-- On every path, the returned confidence interval is exactly the 25th/75th
percentile pair of the prepared monthly series. -/
theorem forecast_ci_lemma {txs : List Txn} (hne : txs ≠ []) (hwFit rrFit : Option ℚ) :
    ∃ m lo hi r,
      prepare_monthly_data txs = some m ∧
      quantile (1/4) (m.map Prod.snd) = some lo ∧
      quantile (3/4) (m.map Prod.snd) = some hi ∧
      lo ≤ hi ∧
      forecast_spending hwFit rrFit txs = some r ∧
      r.ci_lower = lo ∧ r.ci_upper = hi := by
  obtain ⟨m, hm⟩ := prepare_isSome hne
  have hmne : m ≠ [] := prepare_some_ne_nil hm
  have hvne : m.map Prod.snd ≠ [] := by simpa [List.map_eq_nil_iff] using hmne
  obtain ⟨lo, hlo⟩ := quantile_isSome hvne (1/4)
  obtain ⟨hi, hhi⟩ := quantile_isSome hvne (3/4)
  have hlohi : lo ≤ hi :=
    quantile_le_quantile (by norm_num) (by norm_num) (by norm_num) hlo hhi
  have hfs : forecast_spending hwFit rrFit txs = forecast_from_monthly hwFit rrFit m := by
    rw [forecast_spending, hm, Option.some_bind]
  by_cases hlen : m.length < 6
  · obtain ⟨pred, lo', hi', avg, _, hlo', hhi', _, heq⟩ :=
      forecast_from_monthly_short hmne hlen hwFit rrFit
    obtain rfl : lo = lo' := Option.some.inj (hlo ▸ hlo')
    obtain rfl : hi = hi' := Option.some.inj (hhi ▸ hhi')
    exact ⟨m, lo, hi, _, hm, hlo, hhi, hlohi, by rw [hfs, heq], rfl, rfl⟩
  · cases hcon : ensembleContribs hwFit rrFit (m.map Prod.snd) with
    | nil =>
      obtain ⟨pred, lo', hi', avg, _, hlo', hhi', _, heq⟩ :=
        forecast_from_monthly_ensemble_nil hmne hlen hcon
      obtain rfl : lo = lo' := Option.some.inj (hlo ▸ hlo')
      obtain rfl : hi = hi' := Option.some.inj (hhi ▸ hhi')
      exact ⟨m, lo, hi, _, hm, hlo, hhi, hlohi, by rw [hfs, heq], rfl, rfl⟩
    | cons c cs =>
      have heq := forecast_from_monthly_ensemble_cons hmne hlen hcon
      have hbounds : ∀ x ∈ (c :: cs), x.2.1 = lo ∧ x.2.2 = hi := by
        intro x hx
        have hxc : x ∈ ensembleContribs hwFit rrFit (m.map Prod.snd) := by
          rw [hcon]; exact hx
        obtain ⟨hq1x, hq3x⟩ := ensembleContribs_bounds hxc
        exact ⟨Option.some.inj (hq1x.symm.trans hlo),
          Option.some.inj (hq3x.symm.trans hhi)⟩
      have hlomin : cs.foldl (fun a x => min a x.2.1) c.2.1 = lo :=
        foldl_min_proj_const ((hbounds c (List.mem_cons_self c cs)).1)
          (fun x hx => (hbounds x (List.mem_cons_of_mem c hx)).1)
      have hhimax : cs.foldl (fun a x => max a x.2.2) c.2.2 = hi :=
        foldl_max_proj_const ((hbounds c (List.mem_cons_self c cs)).2)
          (fun x hx => (hbounds x (List.mem_cons_of_mem c hx)).2)
      refine ⟨m, lo, hi, _, hm, hlo, hhi, hlohi, by rw [hfs, heq], ?_, ?_⟩
      · exact hlomin
      · exact hhimax

/-! ## Shape of the monthly series -/

theorem pairwise_lt_range1 (s n : ℕ) : List.Pairwise (· < ·) (List.range' s n) := by
  induction n generalizing s with
  | zero => exact List.Pairwise.nil
  | succ k ih =>
    rw [List.range'_succ]
    refine List.Pairwise.cons ?_ (ih (s + 1))
    intro m hm
    obtain ⟨i, _, rfl⟩ := List.mem_range'.1 hm
    omega

theorem monthlyBins_map_fst (daily : List (Date × ℚ)) :
    (monthlyBins daily).map Prod.fst = monthRange daily := by
  unfold monthlyBins
  rw [List.map_map]
  exact List.map_id _

theorem prepare_map_fst {txs : List Txn} {m : List (ℕ × ℚ)}
    (hm : prepare_monthly_data txs = some m) :
    m.map Prod.fst = monthRange (remove_daily_outliers txs) := by
  by_cases hne : txs = []
  · subst hne; simp [prepare_monthly_data] at hm
  · obtain ⟨u, _, hm'⟩ := prepare_eq_some hne
    rw [hm'] at hm
    obtain rfl := Option.some.inj hm
    rw [List.map_map, ← monthlyBins_map_fst]
    rfl

theorem prepare_length {txs : List Txn} {m : List (ℕ × ℚ)}
    (hm : prepare_monthly_data txs = some m) :
    m.length = (monthRange (remove_daily_outliers txs)).length := by
  have := congrArg List.length (prepare_map_fst hm)
  rwa [List.length_map] at this

theorem foldl_min_proj_mem {β : Type} (g : β → ℚ) (c : β) (cs : List β) :
    cs.foldl (fun a x => min a (g x)) (g c) ∈ (c :: cs).map g := by
  have hrw : (cs.map g).foldl min (g c) = cs.foldl (fun a x => min a (g x)) (g c) :=
    List.foldl_map g min cs (g c)
  rw [List.map_cons, ← hrw]
  rcases foldl_min_choice (cs.map g) (g c) with h | h
  · rw [h]; exact List.mem_cons_self _ _
  · exact List.mem_cons_of_mem _ h

theorem foldl_min_proj_le {β : Type} (g : β → ℚ) (c : β) (cs : List β) :
    ∀ v ∈ (c :: cs).map g, cs.foldl (fun a x => min a (g x)) (g c) ≤ v := by
  intro v hv
  have hrw : (cs.map g).foldl min (g c) = cs.foldl (fun a x => min a (g x)) (g c) :=
    List.foldl_map g min cs (g c)
  rw [List.map_cons, List.mem_cons] at hv
  rw [← hrw]
  rcases hv with rfl | hv
  · exact foldl_min_le_init _ _
  · exact foldl_min_le_mem hv _

theorem foldl_max_proj_mem {β : Type} (g : β → ℚ) (c : β) (cs : List β) :
    cs.foldl (fun a x => max a (g x)) (g c) ∈ (c :: cs).map g := by
  have hrw : (cs.map g).foldl max (g c) = cs.foldl (fun a x => max a (g x)) (g c) :=
    List.foldl_map g max cs (g c)
  rw [List.map_cons, ← hrw]
  rcases foldl_max_choice (cs.map g) (g c) with h | h
  · rw [h]; exact List.mem_cons_self _ _
  · exact List.mem_cons_of_mem _ h

theorem foldl_max_proj_ge {β : Type} (g : β → ℚ) (c : β) (cs : List β) :
    ∀ v ∈ (c :: cs).map g, v ≤ cs.foldl (fun a x => max a (g x)) (g c) := by
  intro v hv
  have hrw : (cs.map g).foldl max (g c) = cs.foldl (fun a x => max a (g x)) (g c) :=
    List.foldl_map g max cs (g c)
  rw [List.map_cons, List.mem_cons] at hv
  rw [← hrw]
  rcases hv with rfl | hv
  · exact init_le_foldl_max _ _
  · exact mem_le_foldl_max hv _

/-! ## Claim theorems -/

/-- C2: on the empty transaction list the report endpoint fails with the
insufficient-data error (HTTP 400 "No transactions found for user") and with
no other outcome, whatever the two model fits would have returned. -/
theorem generate_report_empty_insufficient_data (hwFit rrFit : Option ℚ) :
    generate_report hwFit rrFit [] = Except.error ReportError.noTransactions := rfl

/-- C3: for every non-empty transaction list (and any outcome of the two model
fits), `forecast_spending` returns a result whose confidence interval
satisfies `lower ≤ upper`. -/
theorem forecast_ci_ordered (hwFit rrFit : Option ℚ) {txs : List Txn}
    (hne : txs ≠ []) :
    ∃ r, forecast_spending hwFit rrFit txs = some r ∧ r.ci_lower ≤ r.ci_upper := by
  obtain ⟨m, lo, hi, r, _, _, _, hlohi, hr, hl, hu⟩ := forecast_ci_lemma hne hwFit rrFit
  exact ⟨r, hr, by rw [hl, hu]; exact hlohi⟩

theorem forecast_ci_ordered_witness :
    ∃ r, forecast_spending none none [⟨(2024, 1, 5), 100, ""⟩] = some r ∧
      r.ci_lower ≤ r.ci_upper :=
  forecast_ci_ordered none none (List.cons_ne_nil _ _)

/-- C10: for every non-empty transaction list the returned confidence interval
is exactly the 25th/75th percentile pair of the prepared monthly series, on
every path (short-series fallback, one or both forecasters contributing, or
neither). -/
theorem forecast_ci_is_historical_quartiles (hwFit rrFit : Option ℚ) {txs : List Txn}
    (hne : txs ≠ []) :
    ∃ m lo hi r,
      prepare_monthly_data txs = some m ∧
      quantile (1/4) (m.map Prod.snd) = some lo ∧
      quantile (3/4) (m.map Prod.snd) = some hi ∧
      forecast_spending hwFit rrFit txs = some r ∧
      r.ci_lower = lo ∧ r.ci_upper = hi := by
  obtain ⟨m, lo, hi, r, hm, hlo, hhi, _, hr, hl, hu⟩ := forecast_ci_lemma hne hwFit rrFit
  exact ⟨m, lo, hi, r, hm, hlo, hhi, hr, hl, hu⟩

theorem forecast_ci_is_historical_quartiles_witness :
    ∃ m lo hi r,
      prepare_monthly_data [⟨(2024, 2, 10), 40, "a"⟩, ⟨(2024, 2, 11), 60, "b"⟩] = some m ∧
      quantile (1/4) (m.map Prod.snd) = some lo ∧
      quantile (3/4) (m.map Prod.snd) = some hi ∧
      forecast_spending (some 70) none [⟨(2024, 2, 10), 40, "a"⟩, ⟨(2024, 2, 11), 60, "b"⟩]
        = some r ∧
      r.ci_lower = lo ∧ r.ci_upper = hi :=
  forecast_ci_is_historical_quartiles (some 70) none (List.cons_ne_nil _ _)

/-- C4 (amended): whenever the prepared monthly series has fewer than 6
entries (calendar months in the observed span, not distinct months of
activity), the ensemble is skipped and the result is the median of the
monthly series with 25th/75th-percentile bounds and trend exactly 0. -/
theorem forecast_fallback_of_short_series (hwFit rrFit : Option ℚ) {txs : List Txn}
    {m : List (ℕ × ℚ)} (hm : prepare_monthly_data txs = some m)
    (hlen : m.length < 6) :
    ∃ pred lo hi avg,
      median (m.map Prod.snd) = some pred ∧
      quantile (1/4) (m.map Prod.snd) = some lo ∧
      quantile (3/4) (m.map Prod.snd) = some hi ∧
      mean (m.map Prod.snd) = some avg ∧
      forecast_spending hwFit rrFit txs = some ⟨pred, lo, hi, 0, avg⟩ := by
  have hmne := prepare_some_ne_nil hm
  obtain ⟨pred, lo, hi, avg, h1, h2, h3, h4, h5⟩ :=
    forecast_from_monthly_short hmne hlen hwFit rrFit
  exact ⟨pred, lo, hi, avg, h1, h2, h3, h4,
    by rw [forecast_spending, hm, Option.some_bind, h5]⟩

/-- C5: the ensemble combination rule.  A forecaster's triple contributes iff
it produced a value and the prediction is strictly positive; with at least one
contribution the prediction is the arithmetic mean of the contributing
predictions, the lower bound is the minimum of the contributing lower bounds
and the upper bound the maximum of the contributing upper bounds; with no
contribution the median/quartile fallback result is returned. -/
theorem forecast_ensemble_combination_rule (hwFit rrFit : Option ℚ) {txs : List Txn}
    {m : List (ℕ × ℚ)} (hm : prepare_monthly_data txs = some m)
    (hlen : 6 ≤ m.length) :
    (∀ c, c ∈ ensembleContribs hwFit rrFit (m.map Prod.snd) ↔
      ((forecast_holt_winters hwFit (m.map Prod.snd) = some c ∨
        forecast_robust_regression rrFit (m.map Prod.snd) 3 = some c) ∧ 0 < c.1)) ∧
    (ensembleContribs hwFit rrFit (m.map Prod.snd) = [] →
      ∃ pred lo hi avg,
        median (m.map Prod.snd) = some pred ∧
        quantile (1/4) (m.map Prod.snd) = some lo ∧
        quantile (3/4) (m.map Prod.snd) = some hi ∧
        mean (m.map Prod.snd) = some avg ∧
        forecast_spending hwFit rrFit txs = some ⟨pred, lo, hi, 0, avg⟩) ∧
    (∀ c cs, ensembleContribs hwFit rrFit (m.map Prod.snd) = c :: cs →
      ∃ r, forecast_spending hwFit rrFit txs = some r ∧
        r.predicted_spending
          = ((c :: cs).map (fun x => x.1)).sum / (((c :: cs).length : ℕ) : ℚ) ∧
        r.ci_lower ∈ (c :: cs).map (fun x => x.2.1) ∧
        (∀ v ∈ (c :: cs).map (fun x => x.2.1), r.ci_lower ≤ v) ∧
        r.ci_upper ∈ (c :: cs).map (fun x => x.2.2) ∧
        (∀ v ∈ (c :: cs).map (fun x => x.2.2), v ≤ r.ci_upper)) := by
  have hmne := prepare_some_ne_nil hm
  have hnlt : ¬ m.length < 6 := not_lt.mpr hlen
  refine ⟨fun c => mem_ensembleContribs, ?_, ?_⟩
  · intro hnil
    obtain ⟨pred, lo, hi, avg, h1, h2, h3, h4, h5⟩ :=
      forecast_from_monthly_ensemble_nil hmne hnlt hnil
    exact ⟨pred, lo, hi, avg, h1, h2, h3, h4,
      by rw [forecast_spending, hm, Option.some_bind, h5]⟩
  · intro c cs hcon
    have heq := forecast_from_monthly_ensemble_cons hmne hnlt hcon
    refine ⟨_, by rw [forecast_spending, hm, Option.some_bind, heq], rfl,
      foldl_min_proj_mem (fun x => x.2.1) c cs,
      foldl_min_proj_le (fun x => x.2.1) c cs,
      foldl_max_proj_mem (fun x => x.2.2) c cs,
      foldl_max_proj_ge (fun x => x.2.2) c cs⟩

/-- C7 (amended): path-conditioned trend.  On the short-series fallback path
the trend is 0; on the ensemble path with no contribution it is 0; on the
ensemble path with at least one contribution it equals
`(prediction − last month) / last month × 100` when the last month's total is
positive and 0 otherwise; and whenever the last month's total is 0 it is 0 on
every path — never an undefined division. -/
theorem trend_percentage_guarded (hwFit rrFit : Option ℚ) {txs : List Txn}
    {m : List (ℕ × ℚ)} {r : ForecastResult}
    (hm : prepare_monthly_data txs = some m)
    (hr : forecast_spending hwFit rrFit txs = some r) :
    (lastMonthTotal txs = 0 → r.trend_percentage = 0) ∧
    (m.length < 6 → r.trend_percentage = 0) ∧
    (¬ m.length < 6 → ensembleContribs hwFit rrFit (m.map Prod.snd) = [] →
      r.trend_percentage = 0) ∧
    (¬ m.length < 6 → ensembleContribs hwFit rrFit (m.map Prod.snd) ≠ [] →
      (0 < lastMonthTotal txs →
        r.trend_percentage =
          (r.predicted_spending - lastMonthTotal txs) / lastMonthTotal txs * 100) ∧
      (¬ 0 < lastMonthTotal txs → r.trend_percentage = 0)) := by
  rw [forecast_spending, hm, Option.some_bind] at hr
  have hmne : m ≠ [] := prepare_some_ne_nil hm
  have hlast : lastMonthTotal txs = ((m.map Prod.snd).getLast?).getD 0 := by
    rw [lastMonthTotal, hm]
    rfl
  by_cases hlen : m.length < 6
  · obtain ⟨pred, lo, hi, avg, _, _, _, _, heq⟩ :=
      forecast_from_monthly_short hmne hlen hwFit rrFit
    rw [heq] at hr
    obtain rfl := Option.some.inj hr
    exact ⟨fun _ => rfl, fun _ => rfl, fun hnl => absurd hlen hnl,
      fun hnl => absurd hlen hnl⟩
  · cases hcon : ensembleContribs hwFit rrFit (m.map Prod.snd) with
    | nil =>
      obtain ⟨pred, lo, hi, avg, _, _, _, _, heq⟩ :=
        forecast_from_monthly_ensemble_nil hmne hlen hcon
      rw [heq] at hr
      obtain rfl := Option.some.inj hr
      exact ⟨fun _ => rfl, fun h6 => absurd h6 hlen, fun _ _ => rfl,
        fun _ hne => absurd rfl hne⟩
    | cons c cs =>
      have heq := forecast_from_monthly_ensemble_cons hmne hlen hcon
      rw [heq] at hr
      obtain rfl := Option.some.inj hr
      refine ⟨?_, fun h6 => absurd h6 hlen, fun _ hceq => List.noConfusion hceq,
        fun _ _ => ⟨?_, ?_⟩⟩
      · intro h0
        rw [hlast] at h0
        show (if 0 < ((m.map Prod.snd).getLast?).getD 0 then _ else 0) = 0
        rw [h0, if_neg (lt_irrefl 0)]
      · intro hpos
        rw [hlast] at hpos
        show (if 0 < ((m.map Prod.snd).getLast?).getD 0 then _ else 0) = _
        rw [if_pos hpos, hlast]
      · intro hneg
        rw [hlast] at hneg
        show (if 0 < ((m.map Prod.snd).getLast?).getD 0 then _ else 0) = 0
        rw [if_neg hneg]

/-- C6: after the one-sided cap no monthly value exceeds the pre-cap 95th
percentile, and every entry whose value was at or below that percentile is
returned unchanged. -/
theorem cap_monthly_outliers_spec {monthly capped : List (ℕ × ℚ)} {u : ℚ}
    (hu : quantile (19/20) (monthly.map Prod.snd) = some u)
    (hc : cap_monthly_outliers monthly = some capped) :
    capped.length = monthly.length ∧
    ∀ i, i < capped.length →
      (capped.getD i (0, 0)).2 ≤ u ∧
      ((monthly.getD i (0, 0)).2 ≤ u → capped.getD i (0, 0) = monthly.getD i (0, 0)) := by
  rw [cap_monthly_outliers, hu, Option.map_some'] at hc
  obtain rfl := Option.some.inj hc
  refine ⟨List.length_map _ _, ?_⟩
  intro i hi
  rw [List.length_map] at hi
  rw [List.getD_eq_getElem _ _ (by rw [List.length_map]; exact hi),
    List.getD_eq_getElem _ _ hi, List.getElem_map]
  exact ⟨min_le_right _ _, fun hle => by rw [min_eq_left hle]⟩

/-- C9: if all daily totals are equal, the IQR filter removes no day: the
output of remove_daily_outliers is the whole daily series. -/
theorem remove_daily_outliers_keeps_all_of_const {txs : List Txn} {c : ℚ}
    (hc : ∀ r ∈ dailyTotals txs, r.2 = c) :
    remove_daily_outliers txs = dailyTotals txs := by
  by_cases hne : dailyTotals txs = []
  · rw [remove_daily_outliers]
    rw [hne]
    simp [quantile]
  · have hvne : (dailyTotals txs).map Prod.snd ≠ [] := by
      simpa [List.map_eq_nil_iff] using hne
    have hcv : ∀ x ∈ (dailyTotals txs).map Prod.snd, x = c := by
      intro x hx
      obtain ⟨r, hr, rfl⟩ := List.mem_map.1 hx
      exact hc r hr
    have hq1 : quantile (1/4) ((dailyTotals txs).map Prod.snd) = some c :=
      quantile_const hvne hcv (by norm_num) (by norm_num)
    have hq3 : quantile (3/4) ((dailyTotals txs).map Prod.snd) = some c :=
      quantile_const hvne hcv (by norm_num) (by norm_num)
    rw [remove_daily_outliers, hq1, hq3]
    apply List.filter_eq_self.mpr
    intro r hr
    rw [hc r hr]
    exact decide_eq_true (by constructor <;> linarith)

/-- C8: for every input with at least one transaction the prepared monthly
series exists, is non-empty, carries exactly one entry per calendar month
from the first to the last month observed in the surviving daily data (no
gaps), and its months are strictly increasing. -/
theorem prepare_monthly_contiguous {txs : List Txn} (hne : txs ≠ []) :
    ∃ m lo hi,
      prepare_monthly_data txs = some m ∧ m ≠ [] ∧
      lo ∈ (remove_daily_outliers txs).map (fun r => monthOf r.1) ∧
      hi ∈ (remove_daily_outliers txs).map (fun r => monthOf r.1) ∧
      (∀ mo ∈ (remove_daily_outliers txs).map (fun r => monthOf r.1),
        lo ≤ mo ∧ mo ≤ hi) ∧
      m.map Prod.fst = List.range' lo (hi + 1 - lo) ∧
      m.length = hi + 1 - lo ∧
      List.Pairwise (· < ·) (m.map Prod.fst) := by
  obtain ⟨m, hm⟩ := prepare_isSome hne
  have hdne := remove_daily_outliers_ne_nil hne
  obtain ⟨mo, ms, hmap⟩ :
      ∃ mo ms, (remove_daily_outliers txs).map (fun r => monthOf r.1) = mo :: ms := by
    cases hd : (remove_daily_outliers txs).map (fun r => monthOf r.1) with
    | nil => exact absurd (List.map_eq_nil_iff.1 hd) hdne
    | cons a l => exact ⟨a, l, rfl⟩
  have hfst : m.map Prod.fst =
      List.range' (ms.foldl min mo) (ms.foldl max mo + 1 - ms.foldl min mo) := by
    rw [prepare_map_fst hm, monthRange_eq hmap]
  have hlen : m.length = ms.foldl max mo + 1 - ms.foldl min mo := by
    have := congrArg List.length hfst
    rwa [List.length_map, List.length_range'] at this
  refine ⟨m, ms.foldl min mo, ms.foldl max mo, hm, prepare_some_ne_nil hm, ?_, ?_, ?_,
    by rw [hfst], hlen, by rw [hfst]; exact pairwise_lt_range1 _ _⟩
  · rw [hmap]
    rcases foldl_min_choice ms mo with h | h
    · rw [h]; exact List.mem_cons_self _ _
    · exact List.mem_cons_of_mem _ h
  · rw [hmap]
    rcases foldl_max_choice ms mo with h | h
    · rw [h]; exact List.mem_cons_self _ _
    · exact List.mem_cons_of_mem _ h
  · intro x hx
    rw [hmap, List.mem_cons] at hx
    rcases hx with rfl | hx
    · exact ⟨foldl_min_le_init _ _, init_le_foldl_max _ _⟩
    · exact ⟨foldl_min_le_mem hx _, mem_le_foldl_max hx _⟩

theorem prepare_monthly_contiguous_witness :
    ∃ m lo hi,
      prepare_monthly_data [⟨(2024, 3, 7), 55, "x"⟩] = some m ∧ m ≠ [] ∧
      lo ∈ (remove_daily_outliers [⟨(2024, 3, 7), 55, "x"⟩]).map (fun r => monthOf r.1) ∧
      hi ∈ (remove_daily_outliers [⟨(2024, 3, 7), 55, "x"⟩]).map (fun r => monthOf r.1) ∧
      (∀ mo ∈ (remove_daily_outliers [⟨(2024, 3, 7), 55, "x"⟩]).map (fun r => monthOf r.1),
        lo ≤ mo ∧ mo ≤ hi) ∧
      m.map Prod.fst = List.range' lo (hi + 1 - lo) ∧
      m.length = hi + 1 - lo ∧
      List.Pairwise (· < ·) (m.map Prod.fst) :=
  prepare_monthly_contiguous (List.cons_ne_nil _ _)

/-! ## Concrete evaluations -/

theorem fl_quarter : ⌊(1/4 : ℚ)⌋ = 0 := by
  rw [Int.floor_eq_iff]; norm_num

theorem cl_quarter : ⌈(1/4 : ℚ)⌉ = 1 := by
  rw [Int.ceil_eq_iff]; norm_num

theorem fl_half : ⌊(1/2 : ℚ)⌋ = 0 := by
  rw [Int.floor_eq_iff]; norm_num

theorem cl_half : ⌈(1/2 : ℚ)⌉ = 1 := by
  rw [Int.ceil_eq_iff]; norm_num

theorem fl_threeq : ⌊(3/4 : ℚ)⌋ = 0 := by
  rw [Int.floor_eq_iff]; norm_num

theorem cl_threeq : ⌈(3/4 : ℚ)⌉ = 1 := by
  rw [Int.ceil_eq_iff]; norm_num

theorem fl_ninefive : ⌊(19/20 : ℚ)⌋ = 0 := by
  rw [Int.floor_eq_iff]; norm_num

theorem cl_ninefive : ⌈(19/20 : ℚ)⌉ = 1 := by
  rw [Int.ceil_eq_iff]; norm_num

/-- Quantile of a two-value series at an interior position. -/
theorem quantile_pair (x y : ℚ) {p : ℚ} (hf : ⌊p⌋ = 0) (hc : ⌈p⌉ = 1) :
    quantile p [x, y] = some (min x y + p * (max x y - min x y)) := by
  have hsort : List.insertionSort (· ≤ ·) [x, y] = [min x y, max x y] := by
    by_cases hxy : x ≤ y
    · simp [List.insertionSort, List.orderedInsert, hxy, min_eq_left hxy, max_eq_right hxy]
    · have hyx : y ≤ x := le_of_not_le hxy
      simp [List.insertionSort, List.orderedInsert, hxy, min_eq_right hyx, max_eq_left hyx]
  rw [quantile_eq_some (by simp) p, hsort]
  norm_num [interpAt, hf, hc]

theorem dailyTotals_sampleTwoMonths :
    dailyTotals sampleTwoMonths = [((2024, 1, 5), 100), ((2024, 2, 5), 50)] := by
  have hd : txnDates sampleTwoMonths = [(2024, 1, 5), (2024, 2, 5)] := by decide
  rw [dailyTotals, hd]
  norm_num [amountsOn, sampleTwoMonths, List.filter]

theorem remove_sampleTwoMonths :
    remove_daily_outliers sampleTwoMonths = [((2024, 1, 5), 100), ((2024, 2, 5), 50)] := by
  have hmap : (dailyTotals sampleTwoMonths).map Prod.snd = [100, 50] := by
    rw [dailyTotals_sampleTwoMonths]
    rfl
  have hq1 : quantile (1/4) ((dailyTotals sampleTwoMonths).map Prod.snd) = some (125/2) := by
    rw [hmap, quantile_pair 100 50 fl_quarter cl_quarter]
    norm_num
  have hq3 : quantile (3/4) ((dailyTotals sampleTwoMonths).map Prod.snd) = some (175/2) := by
    rw [hmap, quantile_pair 100 50 fl_threeq cl_threeq]
    norm_num
  rw [remove_daily_outliers, hq1, hq3, dailyTotals_sampleTwoMonths]
  norm_num [List.filter]

theorem prepare_sampleTwoMonths :
    prepare_monthly_data sampleTwoMonths = some [(24289, 195/2), (24290, 50)] := by
  have hbins : monthlyBins (remove_daily_outliers sampleTwoMonths)
      = [(24289, 100), (24290, 50)] := by
    rw [monthlyBins, monthRange, remove_sampleTwoMonths]
    norm_num [monthOf, monthTotal, List.filter, List.range']
  have hq : quantile (19/20) ((monthlyBins (remove_daily_outliers sampleTwoMonths)).map
      Prod.snd) = some (195/2) := by
    rw [hbins]
    have : ([(24289, 100), (24290, 50)] : List (ℕ × ℚ)).map Prod.snd = [100, 50] := rfl
    rw [this, quantile_pair 100 50 fl_ninefive cl_ninefive]
    norm_num
  show cap_monthly_outliers (monthlyBins (remove_daily_outliers sampleTwoMonths))
    = some [(24289, 195/2), (24290, 50)]
  rw [cap_monthly_outliers, hq, Option.map_some', hbins]
  norm_num [min_def]

theorem forecast_sampleTwoMonths :
    forecast_spending none none sampleTwoMonths =
      some ⟨295/4, 495/8, 685/8, 0, 295/4⟩ := by
  rw [forecast_spending, prepare_sampleTwoMonths, Option.some_bind]
  have hmap : ([(24289, 195/2), (24290, 50)] : List (ℕ × ℚ)).map Prod.snd
      = [195/2, 50] := rfl
  have hmean : mean (([(24289, 195/2), (24290, 50)] : List (ℕ × ℚ)).map Prod.snd)
      = some (295/4) := by
    rw [hmap, mean]
    norm_num
  have hmed : median (([(24289, 195/2), (24290, 50)] : List (ℕ × ℚ)).map Prod.snd)
      = some (295/4) := by
    rw [hmap, median, quantile_pair (195/2) 50 fl_half cl_half]
    norm_num [min_def, max_def]
  have hq1 : quantile (1/4) (([(24289, 195/2), (24290, 50)] : List (ℕ × ℚ)).map Prod.snd)
      = some (495/8) := by
    rw [hmap, quantile_pair (195/2) 50 fl_quarter cl_quarter]
    norm_num [min_def, max_def]
  have hq3 : quantile (3/4) (([(24289, 195/2), (24290, 50)] : List (ℕ × ℚ)).map Prod.snd)
      = some (685/8) := by
    rw [hmap, quantile_pair (195/2) 50 fl_threeq cl_threeq]
    norm_num [min_def, max_def]
  simp only [forecast_from_monthly, hmean, hmed, hq1, hq3, Option.bind_eq_bind,
    Option.some_bind]
  rw [if_pos (by norm_num : ([(24289, (195:ℚ)/2), (24290, 50)] : List (ℕ × ℚ)).length < 6)]

theorem fl_nineteenth : ⌊(19/10 : ℚ)⌋ = 1 := by
  rw [Int.floor_eq_iff]; norm_num

theorem cl_nineteenth : ⌈(19/10 : ℚ)⌉ = 2 := by
  rw [Int.ceil_eq_iff]; norm_num

theorem sort_gapVals :
    List.insertionSort (· ≤ ·) [(100 : ℚ), 0, 100] = [0, 100, 100] := by
  norm_num [List.insertionSort, List.orderedInsert]

theorem median_gapVals : median [(100 : ℚ), 0, 100] = some 100 := by
  rw [median, quantile_eq_some (by simp), sort_gapVals]
  norm_num [interpAt]

theorem q95_gapVals : quantile (19/20) [(100 : ℚ), 0, 100] = some 100 := by
  rw [quantile_eq_some (by simp), sort_gapVals]
  have ht2 : Int.toNat 2 = 2 := rfl
  norm_num [interpAt, fl_nineteenth, cl_nineteenth, ht2]

theorem daily_sampleGapMonth :
    dailyTotals sampleGapMonth = [((2024, 1, 5), 100), ((2024, 3, 5), 100)] := by
  have hd : txnDates sampleGapMonth = [(2024, 1, 5), (2024, 3, 5)] := by decide
  rw [dailyTotals, hd]
  norm_num [amountsOn, sampleGapMonth, List.filter]

theorem remove_sampleGapMonth :
    remove_daily_outliers sampleGapMonth = [((2024, 1, 5), 100), ((2024, 3, 5), 100)] := by
  have hmap : (dailyTotals sampleGapMonth).map Prod.snd = [100, 100] := by
    rw [daily_sampleGapMonth]
    rfl
  have hq1 : quantile (1/4) ((dailyTotals sampleGapMonth).map Prod.snd) = some 100 := by
    rw [hmap, quantile_pair 100 100 fl_quarter cl_quarter]
    norm_num
  have hq3 : quantile (3/4) ((dailyTotals sampleGapMonth).map Prod.snd) = some 100 := by
    rw [hmap, quantile_pair 100 100 fl_threeq cl_threeq]
    norm_num
  rw [remove_daily_outliers, hq1, hq3, daily_sampleGapMonth]
  norm_num [List.filter]

theorem bins_sampleGapMonth :
    monthlyBins (remove_daily_outliers sampleGapMonth) =
      [(24289, 100), (24290, 0), (24291, 100)] := by
  rw [monthlyBins, remove_sampleGapMonth]
  have hrange : monthRange [(((2024:ℕ), (1:ℕ), (5:ℕ)), (100:ℚ)), ((2024, 3, 5), 100)]
      = [24289, 24290, 24291] := by decide
  rw [hrange]
  norm_num [monthTotal, monthOf, List.filter]

theorem prepare_sampleGapMonth :
    prepare_monthly_data sampleGapMonth =
      some [(24289, 100), (24290, 0), (24291, 100)] := by
  show cap_monthly_outliers (monthlyBins (remove_daily_outliers sampleGapMonth))
    = some [(24289, 100), (24290, 0), (24291, 100)]
  have hq : quantile (19/20)
      ((monthlyBins (remove_daily_outliers sampleGapMonth)).map Prod.snd) = some 100 := by
    rw [bins_sampleGapMonth]
    exact q95_gapVals
  rw [cap_monthly_outliers, hq, Option.map_some', bins_sampleGapMonth]
  norm_num [min_def]

/-- C1 (evaluation at the failing input): with transactions only in January
and March 2024, the February bin of the prepared monthly series is `0.0`,
while the median of the monthly totals before any filling is `100`.  The
`groupby(pd.Grouper(freq='ME')).sum()` at `ml.py:54` already emits `0.0` for
the empty February bin, so the `.asfreq('ME').fillna(median)` at `ml.py:56`
never fills anything: the spec's median-fill never happens. -/
theorem gap_month_gets_zero_not_median :
    prepare_monthly_data sampleGapMonth =
      some [(24289, 100), (24290, 0), (24291, 100)] ∧
    median ((monthlyBins (remove_daily_outliers sampleGapMonth)).map Prod.snd)
      = some 100 ∧
    (0 : ℚ) ≠ 100 := by
  refine ⟨prepare_sampleGapMonth, ?_, by norm_num⟩
  rw [bins_sampleGapMonth]
  exact median_gapVals

theorem fl_q25_12 : ⌊(11/4 : ℚ)⌋ = 2 := by
  rw [Int.floor_eq_iff]; norm_num

theorem cl_q25_12 : ⌈(11/4 : ℚ)⌉ = 3 := by
  rw [Int.ceil_eq_iff]; norm_num

theorem fl_med_12 : ⌊(11/2 : ℚ)⌋ = 5 := by
  rw [Int.floor_eq_iff]; norm_num

theorem cl_med_12 : ⌈(11/2 : ℚ)⌉ = 6 := by
  rw [Int.ceil_eq_iff]; norm_num

theorem fl_q75_12 : ⌊(33/4 : ℚ)⌋ = 8 := by
  rw [Int.floor_eq_iff]; norm_num

theorem cl_q75_12 : ⌈(33/4 : ℚ)⌉ = 9 := by
  rw [Int.ceil_eq_iff]; norm_num

theorem fl_q95_12 : ⌊(209/20 : ℚ)⌋ = 10 := by
  rw [Int.floor_eq_iff]; norm_num

theorem cl_q95_12 : ⌈(209/20 : ℚ)⌉ = 11 := by
  rw [Int.ceil_eq_iff]; norm_num

theorem sort_sparseVals :
    List.insertionSort (· ≤ ·) [(100:ℚ), 0, 0, 0, 0, 0, 0, 0, 0, 0, 0, 100]
      = [(0:ℚ), 0, 0, 0, 0, 0, 0, 0, 0, 0, 100, 100] := by
  norm_num [List.insertionSort, List.orderedInsert]

theorem q25_sparseVals : quantile (1/4) [(100:ℚ), 0, 0, 0, 0, 0, 0, 0, 0, 0, 0, 100] = some 0 := by
  rw [quantile_eq_some (by simp), sort_sparseVals]
  have ht2 : Int.toNat 2 = 2 := rfl
  have ht3 : Int.toNat 3 = 3 := rfl
  norm_num [interpAt, fl_q25_12, cl_q25_12, ht2, ht3]

theorem med_sparseVals : median [(100:ℚ), 0, 0, 0, 0, 0, 0, 0, 0, 0, 0, 100] = some 0 := by
  rw [median, quantile_eq_some (by simp), sort_sparseVals]
  have ht5 : Int.toNat 5 = 5 := rfl
  have ht6 : Int.toNat 6 = 6 := rfl
  norm_num [interpAt, fl_med_12, cl_med_12, ht5, ht6]

theorem q75_sparseVals : quantile (3/4) [(100:ℚ), 0, 0, 0, 0, 0, 0, 0, 0, 0, 0, 100] = some 0 := by
  rw [quantile_eq_some (by simp), sort_sparseVals]
  have ht8 : Int.toNat 8 = 8 := rfl
  have ht9 : Int.toNat 9 = 9 := rfl
  norm_num [interpAt, fl_q75_12, cl_q75_12, ht8, ht9]

theorem q95_sparseVals : quantile (19/20) [(100:ℚ), 0, 0, 0, 0, 0, 0, 0, 0, 0, 0, 100] = some 100 := by
  rw [quantile_eq_some (by simp), sort_sparseVals]
  have ht10 : Int.toNat 10 = 10 := rfl
  have ht11 : Int.toNat 11 = 11 := rfl
  norm_num [interpAt, fl_q95_12, cl_q95_12, ht10, ht11]

theorem daily_sampleSparseYear :
    dailyTotals sampleSparseYear = [((2024, 1, 5), 100), ((2024, 12, 5), 100)] := by
  have hd : txnDates sampleSparseYear = [(2024, 1, 5), (2024, 12, 5)] := by decide
  rw [dailyTotals, hd]
  norm_num [amountsOn, sampleSparseYear, List.filter]

theorem remove_sampleSparseYear :
    remove_daily_outliers sampleSparseYear
      = [((2024, 1, 5), 100), ((2024, 12, 5), 100)] := by
  have hmap : (dailyTotals sampleSparseYear).map Prod.snd = [100, 100] := by
    rw [daily_sampleSparseYear]
    rfl
  have hq1 : quantile (1/4) ((dailyTotals sampleSparseYear).map Prod.snd) = some 100 := by
    rw [hmap, quantile_pair 100 100 fl_quarter cl_quarter]
    norm_num
  have hq3 : quantile (3/4) ((dailyTotals sampleSparseYear).map Prod.snd) = some 100 := by
    rw [hmap, quantile_pair 100 100 fl_threeq cl_threeq]
    norm_num
  rw [remove_daily_outliers, hq1, hq3, daily_sampleSparseYear]
  norm_num [List.filter]

theorem bins_sampleSparseYear :
    monthlyBins (remove_daily_outliers sampleSparseYear) = [(24289, 100), (24290, 0), (24291, 0), (24292, 0), (24293, 0), (24294, 0), (24295, 0), (24296, 0), (24297, 0), (24298, 0), (24299, 0), (24300, 100)] := by
  rw [monthlyBins, remove_sampleSparseYear]
  have hrange : monthRange [(((2024:ℕ), (1:ℕ), (5:ℕ)), (100:ℚ)), ((2024, 12, 5), 100)]
      = [24289, 24290, 24291, 24292, 24293, 24294, 24295, 24296, 24297, 24298,
        24299, 24300] := by decide
  rw [hrange]
  norm_num [monthTotal, monthOf, List.filter]

theorem prepare_sampleSparseYear :
    prepare_monthly_data sampleSparseYear = some [(24289, 100), (24290, 0), (24291, 0), (24292, 0), (24293, 0), (24294, 0), (24295, 0), (24296, 0), (24297, 0), (24298, 0), (24299, 0), (24300, 100)] := by
  show cap_monthly_outliers (monthlyBins (remove_daily_outliers sampleSparseYear))
    = some [(24289, 100), (24290, 0), (24291, 0), (24292, 0), (24293, 0), (24294, 0), (24295, 0), (24296, 0), (24297, 0), (24298, 0), (24299, 0), (24300, 100)]
  have hq : quantile (19/20)
      ((monthlyBins (remove_daily_outliers sampleSparseYear)).map Prod.snd)
      = some 100 := by
    rw [bins_sampleSparseYear]
    exact q95_sparseVals
  rw [cap_monthly_outliers, hq, Option.map_some', bins_sampleSparseYear]
  norm_num [min_def]

theorem hw_sparseVals :
    forecast_holt_winters (some 200) [(100:ℚ), 0, 0, 0, 0, 0, 0, 0, 0, 0, 0, 100] = some (200, 0, 0) := by
  simp only [forecast_holt_winters, q25_sparseVals, q75_sparseVals,
    Option.bind_eq_bind, Option.some_bind, Option.pure_def]

theorem rr_sparseVals :
    forecast_robust_regression none [(100:ℚ), 0, 0, 0, 0, 0, 0, 0, 0, 0, 0, 100] 3 = none := by
  rw [forecast_robust_regression,
    if_neg (by decide : ¬ ((create_lagged_features [(100:ℚ), 0, 0, 0, 0, 0, 0, 0, 0, 0, 0, 100] 3).isEmpty = true))]
  rfl

theorem contribs_sparseVals :
    ensembleContribs (some 200) none [(100:ℚ), 0, 0, 0, 0, 0, 0, 0, 0, 0, 0, 100] = [(200, 0, 0)] := by
  rw [ensembleContribs, hw_sparseVals, rr_sparseVals]
  norm_num

theorem forecast_sampleSparseYear :
    forecast_spending (some 200) none sampleSparseYear
      = some ⟨200, 0, 0, 100, 50/3⟩ := by
  rw [forecast_spending, prepare_sampleSparseYear, Option.some_bind]
  have hmap : ([(24289, 100), (24290, 0), (24291, 0), (24292, 0), (24293, 0), (24294, 0), (24295, 0), (24296, 0), (24297, 0), (24298, 0), (24299, 0), (24300, 100)] : List (ℕ × ℚ)).map Prod.snd = [(100:ℚ), 0, 0, 0, 0, 0, 0, 0, 0, 0, 0, 100] := rfl
  have hmean : mean (([(24289, 100), (24290, 0), (24291, 0), (24292, 0), (24293, 0), (24294, 0), (24295, 0), (24296, 0), (24297, 0), (24298, 0), (24299, 0), (24300, 100)] : List (ℕ × ℚ)).map Prod.snd) = some (50/3) := by
    rw [hmap, mean]
    norm_num
  have hcon : ensembleContribs (some 200) none (([(24289, 100), (24290, 0), (24291, 0), (24292, 0), (24293, 0), (24294, 0), (24295, 0), (24296, 0), (24297, 0), (24298, 0), (24299, 0), (24300, 100)] : List (ℕ × ℚ)).map Prod.snd)
      = [(200, 0, 0)] := by
    rw [hmap]
    exact contribs_sparseVals
  simp only [forecast_from_monthly, hmean, Option.bind_eq_bind, Option.some_bind]
  rw [if_neg (by norm_num : ¬ (([(24289, 100), (24290, 0), (24291, 0), (24292, 0), (24293, 0), (24294, 0), (24295, 0), (24296, 0), (24297, 0), (24298, 0), (24299, 0), (24300, 100)] : List (ℕ × ℚ)).length < 6)), hcon]
  have hlast : ((([(24289, 100), (24290, 0), (24291, 0), (24292, 0), (24293, 0), (24294, 0), (24295, 0), (24296, 0), (24297, 0), (24298, 0), (24299, 0), (24300, 100)] : List (ℕ × ℚ)).map Prod.snd).getLast?).getD 0 = 100 := rfl
  norm_num [hlast]

/-- C4 (counterexample): the input has only 2 distinct months of activity
(fewer than 6), yet the prepared series spans 12 months, so the code takes
the ensemble path, not the fallback: with the Holt-Winters fit returning 200
the result has prediction 200 (≠ the series median 0) and trend 100 (≠ 0).
"Fewer than 6 distinct months of activity" does not trigger the fallback;
only "fewer than 6 entries in the monthly series" does. -/
theorem fallback_trigger_counterexample :
    distinctActiveMonths sampleSparseYear = 2 ∧
    2 < 6 ∧
    median (((prepare_monthly_data sampleSparseYear).getD []).map Prod.snd)
      = some 0 ∧
    forecast_spending (some 200) none sampleSparseYear
      = some ⟨200, 0, 0, 100, 50/3⟩ ∧
    (200 : ℚ) ≠ 0 ∧ (100 : ℚ) ≠ 0 := by
  refine ⟨by decide, by norm_num, ?_, forecast_sampleSparseYear, by norm_num, by norm_num⟩
  rw [prepare_sampleSparseYear]
  show median (([(24289, 100), (24290, 0), (24291, 0), (24292, 0), (24293, 0), (24294, 0), (24295, 0), (24296, 0), (24297, 0), (24298, 0), (24299, 0), (24300, 100)] : List (ℕ × ℚ)).map Prod.snd) = some 0
  rw [(rfl : ([(24289, 100), (24290, 0), (24291, 0), (24292, 0), (24293, 0), (24294, 0), (24295, 0), (24296, 0), (24297, 0), (24298, 0), (24299, 0), (24300, 100)] : List (ℕ × ℚ)).map Prod.snd = [(100:ℚ), 0, 0, 0, 0, 0, 0, 0, 0, 0, 0, 100])]
  exact med_sparseVals

/-- C7 (counterexample): on the short-series fallback path the last month's
total is 50, nonzero, yet `trend_percentage` is 0 and not
`(prediction − 50)/50·100 = 47.5`: the formula does not apply merely because
the last month's total is nonzero. -/
theorem trend_formula_counterexample :
    forecast_spending none none sampleTwoMonths
      = some ⟨295/4, 495/8, 685/8, 0, 295/4⟩ ∧
    lastMonthTotal sampleTwoMonths = 50 ∧
    (50 : ℚ) ≠ 0 ∧
    (0 : ℚ) ≠ ((295/4 : ℚ) - 50) / 50 * 100 := by
  refine ⟨forecast_sampleTwoMonths, ?_, by norm_num, by norm_num⟩
  rw [lastMonthTotal, prepare_sampleTwoMonths]
  rfl

theorem trend_percentage_guarded_witness :
    (lastMonthTotal sampleSparseYear = 0 →
      (⟨200, 0, 0, 100, 50/3⟩ : ForecastResult).trend_percentage = 0) ∧
    (([(24289, 100), (24290, 0), (24291, 0), (24292, 0), (24293, 0), (24294, 0), (24295, 0), (24296, 0), (24297, 0), (24298, 0), (24299, 0), (24300, 100)] : List (ℕ × ℚ)).length < 6 →
      (⟨200, 0, 0, 100, 50/3⟩ : ForecastResult).trend_percentage = 0) ∧
    (¬ ([(24289, 100), (24290, 0), (24291, 0), (24292, 0), (24293, 0), (24294, 0), (24295, 0), (24296, 0), (24297, 0), (24298, 0), (24299, 0), (24300, 100)] : List (ℕ × ℚ)).length < 6 →
      ensembleContribs (some 200) none
        (([(24289, 100), (24290, 0), (24291, 0), (24292, 0), (24293, 0), (24294, 0), (24295, 0), (24296, 0), (24297, 0), (24298, 0), (24299, 0), (24300, 100)] : List (ℕ × ℚ)).map Prod.snd) = [] →
      (⟨200, 0, 0, 100, 50/3⟩ : ForecastResult).trend_percentage = 0) ∧
    (¬ ([(24289, 100), (24290, 0), (24291, 0), (24292, 0), (24293, 0), (24294, 0), (24295, 0), (24296, 0), (24297, 0), (24298, 0), (24299, 0), (24300, 100)] : List (ℕ × ℚ)).length < 6 →
      ensembleContribs (some 200) none
        (([(24289, 100), (24290, 0), (24291, 0), (24292, 0), (24293, 0), (24294, 0), (24295, 0), (24296, 0), (24297, 0), (24298, 0), (24299, 0), (24300, 100)] : List (ℕ × ℚ)).map Prod.snd) ≠ [] →
      (0 < lastMonthTotal sampleSparseYear →
        (⟨200, 0, 0, 100, 50/3⟩ : ForecastResult).trend_percentage =
          ((⟨200, 0, 0, 100, 50/3⟩ : ForecastResult).predicted_spending
              - lastMonthTotal sampleSparseYear) / lastMonthTotal sampleSparseYear * 100) ∧
      (¬ 0 < lastMonthTotal sampleSparseYear →
        (⟨200, 0, 0, 100, 50/3⟩ : ForecastResult).trend_percentage = 0)) :=
  trend_percentage_guarded (some 200) none prepare_sampleSparseYear
    forecast_sampleSparseYear

theorem forecast_fallback_of_short_series_witness :
    ∃ pred lo hi avg,
      median (([(24289, 195/2), (24290, 50)] : List (ℕ × ℚ)).map Prod.snd) = some pred ∧
      quantile (1/4) (([(24289, 195/2), (24290, 50)] : List (ℕ × ℚ)).map Prod.snd)
        = some lo ∧
      quantile (3/4) (([(24289, 195/2), (24290, 50)] : List (ℕ × ℚ)).map Prod.snd)
        = some hi ∧
      mean (([(24289, 195/2), (24290, 50)] : List (ℕ × ℚ)).map Prod.snd) = some avg ∧
      forecast_spending none none sampleTwoMonths = some ⟨pred, lo, hi, 0, avg⟩ :=
  forecast_fallback_of_short_series none none prepare_sampleTwoMonths (by norm_num)

theorem daily_sampleFlatDays :
    dailyTotals sampleFlatDays = [((2024, 4, 1), 70), ((2024, 4, 2), 70)] := by
  have hd : txnDates sampleFlatDays = [(2024, 4, 1), (2024, 4, 2)] := by decide
  rw [dailyTotals, hd]
  norm_num [amountsOn, sampleFlatDays, List.filter]

theorem remove_daily_outliers_keeps_all_of_const_witness :
    remove_daily_outliers sampleFlatDays = dailyTotals sampleFlatDays :=
  remove_daily_outliers_keeps_all_of_const (c := 70)
    (by simp only [daily_sampleFlatDays]; decide)

theorem daily_sampleSixMonths :
    dailyTotals sampleSixMonths =
      [((2024, 1, 5), 100), ((2024, 2, 5), 100), ((2024, 3, 5), 100),
        ((2024, 4, 5), 100), ((2024, 5, 5), 100), ((2024, 6, 5), 100)] := by
  have hd : txnDates sampleSixMonths = [(2024, 1, 5), (2024, 2, 5), (2024, 3, 5),
      (2024, 4, 5), (2024, 5, 5), (2024, 6, 5)] := by decide
  rw [dailyTotals, hd]
  norm_num [amountsOn, sampleSixMonths, List.filter]

theorem q_const_six (p : ℚ) (hp0 : 0 ≤ p) (hp1 : p ≤ 1) :
    quantile p [(100 : ℚ), 100, 100, 100, 100, 100] = some 100 :=
  quantile_const (by simp) (by decide) hp0 hp1

theorem remove_sampleSixMonths :
    remove_daily_outliers sampleSixMonths =
      [((2024, 1, 5), 100), ((2024, 2, 5), 100), ((2024, 3, 5), 100),
        ((2024, 4, 5), 100), ((2024, 5, 5), 100), ((2024, 6, 5), 100)] := by
  have hmap : (dailyTotals sampleSixMonths).map Prod.snd
      = [100, 100, 100, 100, 100, 100] := by
    rw [daily_sampleSixMonths]
    rfl
  have hq1 : quantile (1/4) ((dailyTotals sampleSixMonths).map Prod.snd) = some 100 := by
    rw [hmap]
    exact q_const_six _ (by norm_num) (by norm_num)
  have hq3 : quantile (3/4) ((dailyTotals sampleSixMonths).map Prod.snd) = some 100 := by
    rw [hmap]
    exact q_const_six _ (by norm_num) (by norm_num)
  rw [remove_daily_outliers, hq1, hq3, daily_sampleSixMonths]
  norm_num [List.filter]

theorem bins_sampleSixMonths :
    monthlyBins (remove_daily_outliers sampleSixMonths) =
      [(24289, 100), (24290, 100), (24291, 100), (24292, 100), (24293, 100),
        (24294, 100)] := by
  rw [monthlyBins, remove_sampleSixMonths]
  have hrange : monthRange [(((2024:ℕ), (1:ℕ), (5:ℕ)), (100:ℚ)), ((2024, 2, 5), 100),
      ((2024, 3, 5), 100), ((2024, 4, 5), 100), ((2024, 5, 5), 100), ((2024, 6, 5), 100)]
      = [24289, 24290, 24291, 24292, 24293, 24294] := by decide
  rw [hrange]
  norm_num [monthTotal, monthOf, List.filter]

theorem prepare_sampleSixMonths :
    prepare_monthly_data sampleSixMonths =
      some [(24289, 100), (24290, 100), (24291, 100), (24292, 100), (24293, 100),
        (24294, 100)] := by
  show cap_monthly_outliers (monthlyBins (remove_daily_outliers sampleSixMonths))
    = some [(24289, 100), (24290, 100), (24291, 100), (24292, 100), (24293, 100),
      (24294, 100)]
  have hq : quantile (19/20)
      ((monthlyBins (remove_daily_outliers sampleSixMonths)).map Prod.snd)
      = some 100 := by
    rw [bins_sampleSixMonths]
    exact q_const_six _ (by norm_num) (by norm_num)
  rw [cap_monthly_outliers, hq, Option.map_some', bins_sampleSixMonths]
  norm_num [min_def]

theorem contribs_sampleSixMonths :
    ensembleContribs (some 50) none
      (([(24289, 100), (24290, 100), (24291, 100), (24292, 100), (24293, 100),
        (24294, 100)] : List (ℕ × ℚ)).map Prod.snd) = [(50, 100, 100)] := by
  rw [show (([(24289, 100), (24290, 100), (24291, 100), (24292, 100), (24293, 100),
    (24294, 100)] : List (ℕ × ℚ)).map Prod.snd) = [(100:ℚ), 100, 100, 100, 100, 100]
    from rfl]
  have h14 := q_const_six (1/4) (by norm_num) (by norm_num)
  have h34 := q_const_six (3/4) (by norm_num) (by norm_num)
  have hhw : forecast_holt_winters (some 50) [(100:ℚ), 100, 100, 100, 100, 100]
      = some (50, 100, 100) := by
    simp only [forecast_holt_winters, h14, h34, Option.bind_eq_bind, Option.some_bind,
      Option.pure_def]
  have hrr : forecast_robust_regression none [(100:ℚ), 100, 100, 100, 100, 100] 3
      = none := by
    rw [forecast_robust_regression, if_neg (by decide :
      ¬ ((create_lagged_features [(100:ℚ), 100, 100, 100, 100, 100] 3).isEmpty = true))]
    rfl
  rw [ensembleContribs, hhw, hrr]
  norm_num

theorem forecast_ensemble_combination_rule_witness :
    ∃ r, forecast_spending (some 50) none sampleSixMonths = some r ∧
      r.predicted_spending
        = ((([((50:ℚ), (100:ℚ), (100:ℚ))]).map (fun x => x.1)).sum
          / ((([((50:ℚ), (100:ℚ), (100:ℚ))] : List (ℚ × ℚ × ℚ)).length : ℕ) : ℚ)) := by
  obtain ⟨_, _, h3⟩ :=
    forecast_ensemble_combination_rule (some 50) none prepare_sampleSixMonths (by decide)
  obtain ⟨r, hr, hpred, _⟩ := h3 (50, 100, 100) [] contribs_sampleSixMonths
  exact ⟨r, hr, hpred⟩

theorem cap_pair_eval :
    cap_monthly_outliers [((0:ℕ), (10:ℚ)), (1, 20)] = some [(0, 10), (1, 39/2)] := by
  have hu : quantile (19/20) (([((0:ℕ), (10:ℚ)), (1, 20)] : List (ℕ × ℚ)).map Prod.snd)
      = some (39/2) := by
    rw [show (([((0:ℕ), (10:ℚ)), (1, 20)] : List (ℕ × ℚ)).map Prod.snd) = [10, 20]
      from rfl, quantile_pair 10 20 fl_ninefive cl_ninefive]
    norm_num
  rw [cap_monthly_outliers, hu, Option.map_some']
  norm_num [min_def]

theorem cap_monthly_outliers_spec_witness :
    ([((0:ℕ), (10:ℚ)), (1, 39/2)] : List (ℕ × ℚ)).length
        = ([((0:ℕ), (10:ℚ)), (1, 20)] : List (ℕ × ℚ)).length ∧
    (([((0:ℕ), (10:ℚ)), (1, 39/2)] : List (ℕ × ℚ)).getD 1 (0, 0)).2 ≤ 39/2 ∧
    ([((0:ℕ), (10:ℚ)), (1, 39/2)] : List (ℕ × ℚ)).getD 0 (0, 0)
        = ([((0:ℕ), (10:ℚ)), (1, 20)] : List (ℕ × ℚ)).getD 0 (0, 0) := by
  have hu : quantile (19/20) (([((0:ℕ), (10:ℚ)), (1, 20)] : List (ℕ × ℚ)).map Prod.snd)
      = some (39/2) := by
    rw [show (([((0:ℕ), (10:ℚ)), (1, 20)] : List (ℕ × ℚ)).map Prod.snd) = [10, 20]
      from rfl, quantile_pair 10 20 fl_ninefive cl_ninefive]
    norm_num
  have h := cap_monthly_outliers_spec hu cap_pair_eval
  exact ⟨h.1, (h.2 1 (by norm_num)).1, (h.2 0 (by norm_num)).2 (by norm_num)⟩

end InvestecML
